import Mathlib

/-!
Shallow embedding of the API-testing core of the `curl_observer` repository
(`src/api_tester.py`, `src/logger.py`, `src/utils.py`) and proofs about it.

Modelling conventions:
* Python dict-shaped records (`RequestResult`, events) become structures; a key
  that is absent from a dict is modelled by `none` (or an empty list) in the
  corresponding `Option`/list field.
* Machine time is modelled at integer-millisecond granularity: `time.time()`
  differences shown in a result come from the environment (`NetOutcome`), and
  `datetime.now()` timestamps are modelled by a logical clock in `World`.
* The network is an oracle: one `NetOutcome` describes what the single
  `httpx` `request` call of one attempt does (a response, or a raised fault).
* Python exceptions are the `PyErr` type.  `except Exception` catches every
  constructor except `PyErr.baseExc`, which stands for `BaseException`-derived
  faults such as `asyncio.CancelledError` that Python's `except Exception`
  does not catch.
* An operation that can raise returns `... × Option PyErr` (mutations made
  before the raise persist, as in Python) or `Except PyErr ...` when the
  caller observes only the outcome.
-/

/-- Python runtime values that can appear in an event-data mapping.
`vobj` stands for an arbitrary object that is not JSON-serializable. -/
inductive PyVal where
  | vnone : PyVal
  | vstr (s : String) : PyVal
  | vint (n : Int) : PyVal
  | vobj : PyVal
deriving DecidableEq, Repr

/-- Python exceptions relevant to the embedded code.  All constructors except
`baseExc` model classes deriving from `Exception`; `baseExc` models
`BaseException`-only faults (e.g. `asyncio.CancelledError`), which
`except Exception` does not catch. -/
inductive PyErr where
  | timeoutExc (detail : String) : PyErr
  | connectErrorExc (detail : String) : PyErr
  | valueError (msg : String) : PyErr
  | runtimeError (msg : String) : PyErr
  | attributeError (msg : String) : PyErr
  | typeError (msg : String) : PyErr
  | generic (detail : String) : PyErr
  | baseExc (detail : String) : PyErr
deriving DecidableEq, Repr

/-- Whether the exception's class derives from `Exception` (so that a Python
`except Exception` clause catches it). -/
def isExceptionDerived : PyErr → Bool
  | PyErr.baseExc _ => false
  | _ => true

/-- Python `str(e)` for an exception. -/
def pyStr : PyErr → String
  | PyErr.timeoutExc d => d
  | PyErr.connectErrorExc d => d
  | PyErr.valueError m => m
  | PyErr.runtimeError m => m
  | PyErr.attributeError m => m
  | PyErr.typeError m => m
  | PyErr.generic d => d
  | PyErr.baseExc d => d

/-- Python `type(e).__name__` for an exception. -/
def pyTypeName : PyErr → String
  | PyErr.timeoutExc _ => "TimeoutException"
  | PyErr.connectErrorExc _ => "ConnectError"
  | PyErr.valueError _ => "ValueError"
  | PyErr.runtimeError _ => "RuntimeError"
  | PyErr.attributeError _ => "AttributeError"
  | PyErr.typeError _ => "TypeError"
  | PyErr.generic _ => "Exception"
  | PyErr.baseExc _ => "CancelledError"

/-- Whether `json.dumps` can serialize the value. -/
def serializable : PyVal → Bool
  | PyVal.vobj => false
  | _ => true

/-- JSON rendering of one serializable value. -/
def jsonVal : PyVal → String
  | PyVal.vnone => "null"
  | PyVal.vstr s => "\"" ++ s ++ "\""
  | PyVal.vint n => toString n
  | PyVal.vobj => ""

/-- Python `json.dumps(data)` on a string-keyed mapping: raises `TypeError`
when some value is not serializable. -/
def jsonDumps (data : List (String × PyVal)) : Except PyErr String :=
  if data.all (fun p => serializable p.2) then
    Except.ok ("\x7b" ++ String.intercalate ", "
      (data.map (fun p => "\"" ++ p.1 ++ "\": " ++ jsonVal p.2)) ++ "\x7d")
  else
    Except.error (PyErr.typeError "Object of unsupported type is not JSON serializable")

/-- Rendering of a value inside a Python f-string. -/
def fstr : PyVal → String
  | PyVal.vnone => "None"
  | PyVal.vstr s => s
  | PyVal.vint n => toString n
  | PyVal.vobj => "<object>"

/-- Python `data.get(k, dflt)`.  The literal dicts of the sources have
pairwise-distinct keys, so first-match lookup agrees with Python. -/
def dictGet (data : List (String × PyVal)) (k : String) (dflt : PyVal) : PyVal :=
  match data.find? (fun p => p.1 == k) with
  | some p => p.2
  | none => dflt

/-- Python `str.upper()` (ASCII case mapping, applied per character). -/
def pyUpperStr (s : String) : String :=
  String.mk (s.data.map Char.toUpper)

/-- Python `x.upper()` on an arbitrary value: raises `AttributeError` unless
the value is a string. -/
def pyUpperVal : PyVal → Except PyErr String
  | PyVal.vstr s => Except.ok (pyUpperStr s)
  | _ => Except.error (PyErr.attributeError "object has no attribute upper")

/-- Value of `getattr(logging, name, logging.INFO)`, where `name` is the
uppercased `level` attribute: the eight integer level constants of the
`logging` module, plus the non-integer all-uppercase module attributes an
uppercased string can reach (`BASIC_FORMAT`, a format string, and `_STYLES`,
a dict), with the `INFO` fallback (20) for any other name.  `Logger.log`
raises `TypeError` when the resulting level is not an integer. -/
def resolveLevel (name : String) : PyVal :=
  if name == "DEBUG" then PyVal.vint 10
  else if name == "INFO" then PyVal.vint 20
  else if name == "WARNING" then PyVal.vint 30
  else if name == "WARN" then PyVal.vint 30
  else if name == "ERROR" then PyVal.vint 40
  else if name == "CRITICAL" then PyVal.vint 50
  else if name == "FATAL" then PyVal.vint 50
  else if name == "NOTSET" then PyVal.vint 0
  else if name == "BASIC_FORMAT" then
    PyVal.vstr "%(levelname)s:%(name)s:%(message)s"
  else if name == "_STYLES" then PyVal.vobj
  else PyVal.vint 20

/-- Console logger threshold: `DEBUG` (10) in verbose mode, else `INFO` (20)
(`logger.py`, lines 19-20). -/
def consoleThreshold (verbose : Bool) : Int :=
  if verbose then 10 else 20

/-- Round `num / den` to the nearest integer, ties to even, as Python's
float formatting does at exact midpoints. -/
def halfEvenRound (num den : Nat) : Nat :=
  let q := num / den
  let r := num % den
  if den < 2 * r then q + 1
  else if 2 * r < den then q
  else if q % 2 = 0 then q else q + 1

/-- Print a tenths count as a one-decimal number, e.g. `501 ↦ "50.1"`. -/
def fmtTenths (tenths : Nat) : String :=
  toString (tenths / 10) ++ "." ++ toString (tenths % 10)

/-- `utils.format_duration`, at integer-millisecond granularity (the source
takes float seconds; `ms` here is `seconds * 1000`). -/
def format_duration (ms : Nat) : String :=
  if ms < 1000 then toString ms ++ "ms"
  else if ms < 60000 then fmtTenths (halfEvenRound ms 100) ++ "s"
  else
    toString (ms / 60000) ++ "m " ++ fmtTenths (halfEvenRound (ms % 60000) 100) ++ "s"

/-- The f-string `"{(success_count / len(endpoints)) * 100:.1f}%"` of
`api_tester.py` line 192, on exact rationals. -/
def formatPct (succ total : Nat) : String :=
  fmtTenths (halfEvenRound (succ * 1000) total) ++ "%"

/-- `utils.is_valid_http_method`:
membership of `method.upper()` in the seven-verb set. -/
def is_valid_http_method (method : String) : Bool :=
  ["GET", "POST", "PUT", "DELETE", "PATCH", "HEAD", "OPTIONS"].contains (pyUpperStr method)

/-- One entry of `StructuredLogger.session_data["events"]`.  The timestamp is
the logical clock value at append time. -/
structure Event where
  timestamp : Nat
  type : String
  data : List (String × PyVal)
deriving DecidableEq, Repr

/-- Observable state threaded through the embedded operations: the logger's
session events and console output, plus the delays slept by the retry loop. -/
structure World where
  verbose : Bool
  clock : Nat
  events : List Event
  console : List String
  sleeps : List Nat
deriving DecidableEq, Repr

/-- Fresh state of a session. -/
def initialWorld (verbose : Bool) : World :=
  { verbose := verbose, clock := 0, events := [], console := [], sleeps := [] }

/-- Number of logged events of a given type. -/
def countType (w : World) (ty : String) : Nat :=
  (w.events.filter (fun e => e.type == ty)).length

/-- Condition under which `log_event` mirrors the event to the console
(`logger.py` line 37). -/
def mirrored (verbose : Bool) (event_type : String) : Bool :=
  verbose || event_type == "error" || event_type == "success" || event_type == "warning"

/-- `StructuredLogger.log_event` (`logger.py` lines 28-40).  The event is
appended first; the console-mirroring code can then raise (`.upper()` on a
non-string `level` value; `json.dumps` on unserializable data — the default
argument of `data.get("message", json.dumps(data))` is evaluated eagerly; or
`Logger.log` on a level name resolving to a non-integer `logging` attribute
such as `BASIC_FORMAT`), and such a fault propagates to the caller with the
append already done. -/
def log_event (w : World) (event_type : String) (data : List (String × PyVal)) :
    World × Option PyErr :=
  let ev : Event := { timestamp := w.clock, type := event_type, data := data }
  let w1 : World := { w with clock := w.clock + 1, events := w.events ++ [ev] }
  if mirrored w1.verbose event_type then
    match pyUpperVal (dictGet data "level" (PyVal.vstr "INFO")) with
    | Except.error e => (w1, some e)
    | Except.ok levelName =>
      match jsonDumps data with
      | Except.error e => (w1, some e)
      | Except.ok dumped =>
        let message := fstr (dictGet data "message" (PyVal.vstr dumped))
        let line := "[" ++ event_type ++ "] " ++ message
        match resolveLevel levelName with
        | PyVal.vint lvl =>
          if consoleThreshold w1.verbose ≤ lvl then
            ({ w1 with console := w1.console ++ [line] }, none)
          else (w1, none)
        | _ => (w1, some (PyErr.typeError "level must be an integer"))
  else (w1, none)

/-- Option-to-PyVal helper for the `status_code` / `response_time_ms` slots of
an "api" event. -/
def optIntVal : Option Nat → PyVal
  | some n => PyVal.vint n
  | none => PyVal.vnone

/-- Option-to-PyVal helper for the `error` slot of an "api" event. -/
def optStrVal : Option String → PyVal
  | some s => PyVal.vstr s
  | none => PyVal.vnone

/-- `StructuredLogger.log_api_event` (`logger.py` lines 45-54). -/
def log_api_event (w : World) (method url : String) (status_code : Option Nat)
    (response_time : Option Nat) (error : Option String) : World × Option PyErr :=
  log_event w "api"
    [("method", PyVal.vstr method), ("url", PyVal.vstr url),
     ("status_code", optIntVal status_code),
     ("response_time_ms", optIntVal response_time), ("error", optStrVal error)]

/-- `StructuredLogger.log_error` (`logger.py` lines 56-61). -/
def log_error (w : World) (message : String) (error : Option PyErr) :
    World × Option PyErr :=
  log_event w "error"
    ([("message", PyVal.vstr message), ("level", PyVal.vstr "ERROR")] ++
      (match error with
       | some e => [("error_type", PyVal.vstr (pyTypeName e)),
                    ("error_details", PyVal.vstr (pyStr e))]
       | none => []))

/-- `StructuredLogger.log_success` (`logger.py` lines 63-64). -/
def log_success (w : World) (message : String) : World × Option PyErr :=
  log_event w "success" [("message", PyVal.vstr message), ("level", PyVal.vstr "INFO")]

/-- `StructuredLogger.log_warning` (`logger.py` lines 66-67). -/
def log_warning (w : World) (message : String) : World × Option PyErr :=
  log_event w "warning" [("message", PyVal.vstr message), ("level", PyVal.vstr "WARNING")]

/-- Sequencing with Python raise semantics: when the first statement raised,
the raise propagates (keeping the state as mutated so far); otherwise the
continuation runs. -/
def pyThen {α : Type} (step : World × Option PyErr)
    (k : World → Except PyErr α × World) : Except PyErr α × World :=
  match step with
  | (w1, some e) => (Except.error e, w1)
  | (w1, none) => k w1

/-- Sequencing of a statement inside a `try` block: a raise jumps to the
except-handler chain, otherwise the continuation runs. -/
def pyTry {α : Type} (step : World × Option PyErr)
    (handler : World → PyErr → Except PyErr α × World)
    (k : World → Except PyErr α × World) : Except PyErr α × World :=
  match step with
  | (w1, some e) => handler w1 e
  | (w1, none) => k w1

/-- Sequencing of a sub-computation whose raise propagates. -/
def pyBind {α β : Type} (step : Except PyErr α × World)
    (k : α → World → Except PyErr β × World) : Except PyErr β × World :=
  match step with
  | (Except.error e, w1) => (Except.error e, w1)
  | (Except.ok a, w1) => k a w1

/-- One HTTP response as delivered by the `httpx` client.  `contentRepr` is
`str(response.content)`, `text` is `response.text` (or `none` if decoding
raises), `jsonPretty` is `json.dumps(response.json(), indent=2)` (or `none`
if parsing raises). -/
structure HttpResponse where
  status_code : Nat
  headers : List (String × String)
  contentLen : Nat
  contentRepr : String
  text : Option String
  jsonPretty : Option String
deriving DecidableEq, Repr

/-- What the environment does for one `client.request` call: deliver a
response, or raise.  `ms` is the elapsed wall time in milliseconds observed
at the point where the attempt's outcome is recorded. -/
inductive NetOutcome where
  | resp (r : HttpResponse) (ms : Nat) : NetOutcome
  | raise (e : PyErr) (ms : Nat) : NetOutcome
deriving DecidableEq, Repr

/-- Elapsed milliseconds of an attempt's outcome. -/
def elapsedOf : NetOutcome → Nat
  | NetOutcome.resp _ ms => ms
  | NetOutcome.raise _ ms => ms

/-- True when any fault the outcome raises derives from `Exception`, i.e. the
outcome is one of the spec's I/O failure kinds or a response. -/
def netExcDerived : NetOutcome → Bool
  | NetOutcome.resp _ _ => true
  | NetOutcome.raise e _ => isExceptionDerived e

/-- Python `response.headers.get(k, dflt)`. -/
def headerGet (hs : List (String × String)) (k : String) (dflt : String) : String :=
  match hs.find? (fun p => p.1 == k) with
  | some p => p.2
  | none => dflt

/-- Response-preview computation of `api_tester.py` lines 81-88: pretty JSON
truncated to 500 characters when the content type is JSON, else the first 500
characters of the text; on a parse/decode fault, `str(response.content)`
truncated to 500 characters. -/
def responsePreview (r : HttpResponse) : String :=
  if (headerGet r.headers "content-type" "").startsWith "application/json" then
    match r.jsonPretty with
    | some j => j.take 500
    | none => r.contentRepr.take 500
  else
    match r.text with
    | some t => t.take 500
    | none => r.contentRepr.take 500

/-- The result dict built by `ApiTester.test_endpoint` (`api_tester.py`
lines 41-51).  `retry_attempts` models the key attached post-hoc by the retry
logic; `none` means the key is absent. -/
structure RequestResult where
  url : String
  method : String
  success : Bool
  status_code : Option Nat
  response_time_ms : Option Nat
  response_size_bytes : Option Nat
  error : Option String
  headers : List (String × String)
  response_preview : Option String
  retry_attempts : Option Nat
deriving DecidableEq, Repr

/-- The result of a successful attempt (`api_tester.py` lines 72-88). -/
def respResult (url method : String) (r : HttpResponse) (ms : Nat) : RequestResult :=
  { url := url, method := method, success := true, status_code := some r.status_code,
    response_time_ms := some ms, response_size_bytes := some r.contentLen,
    error := none, headers := r.headers,
    response_preview := some (responsePreview r), retry_attempts := none }

/-- The result built by one of the three except-handlers of `test_endpoint`
(`api_tester.py` lines 113-141). -/
def failResult (url method msg : String) (ms : Nat) : RequestResult :=
  { url := url, method := method, success := false, status_code := none,
    response_time_ms := some ms, response_size_bytes := none, error := some msg,
    headers := [], response_preview := none, retry_attempts := none }

/-- Classification logging of `api_tester.py` lines 100-111: a success event
for 2xx, a warning event for 4xx, an error event for 5xx, nothing otherwise. -/
def classifyStatus (w : World) (method url : String) (code ms : Nat) :
    World × Option PyErr :=
  if 200 ≤ code ∧ code < 300 then
    log_success w (method ++ " " ++ url ++ " -> " ++ toString code ++ " (" ++
      format_duration ms ++ ")")
  else if 400 ≤ code ∧ code < 500 then
    log_warning w (method ++ " " ++ url ++ " -> " ++ toString code ++ " Client Error (" ++
      format_duration ms ++ ")")
  else if 500 ≤ code then
    log_error w (method ++ " " ++ url ++ " -> " ++ toString code ++ " Server Error (" ++
      format_duration ms ++ ")") none
  else (w, none)

/-- Exception dispatch of `test_endpoint` (`api_tester.py` lines 113-141):
`except httpx.TimeoutException`, then `except httpx.ConnectError`, then
`except Exception`; a `BaseException`-derived fault matches none of them and
propagates.  A fault raised inside a handler's own logging also propagates. -/
def teHandle (t : Nat) (url method : String) (net : NetOutcome) (w : World)
    (e : PyErr) : Except PyErr RequestResult × World :=
  let ms := elapsedOf net
  match e with
  | PyErr.timeoutExc _ =>
    let msg := "Request timeout after " ++ toString t ++ "s"
    pyThen (log_api_event w method url none (some ms) (some msg)) (fun w1 =>
      pyThen (log_error w1 (method ++ " " ++ url ++ " -> Timeout") none) (fun w2 =>
        (Except.ok (failResult url method msg ms), w2)))
  | PyErr.connectErrorExc d =>
    let msg := "Connection error: " ++ d
    pyThen (log_api_event w method url none (some ms) (some msg)) (fun w1 =>
      pyThen (log_error w1 (method ++ " " ++ url ++ " -> Connection failed") (some e)) (fun w2 =>
        (Except.ok (failResult url method msg ms), w2)))
  | e' =>
    if isExceptionDerived e' then
      let msg := "Unexpected error: " ++ pyStr e'
      pyThen (log_api_event w method url none (some ms) (some msg)) (fun w1 =>
        pyThen (log_error w1 (method ++ " " ++ url ++ " -> Unexpected error") (some e')) (fun w2 =>
          (Except.ok (failResult url method msg ms), w2)))
    else (Except.error e', w)

/-- `ApiTester.test_endpoint` (`api_tester.py` lines 28-143).  `hasClient`
models whether the async context manager was entered; `t` is the configured
timeout in seconds.  The request headers/body only shape what is sent, which
the `NetOutcome` oracle absorbs. -/
def test_endpoint (hasClient : Bool) (t : Nat) (url method0 : String)
    (net : NetOutcome) (w : World) : Except PyErr RequestResult × World :=
  if hasClient = false then
    (Except.error (PyErr.runtimeError "ApiTester must be used as async context manager"), w)
  else
    let method := pyUpperStr method0
    if is_valid_http_method method = false then
      (Except.error (PyErr.valueError ("Invalid HTTP method: " ++ method)), w)
    else
      match net with
      | NetOutcome.resp r ms =>
        pyTry (log_api_event w method url (some r.status_code) (some ms) none)
          (teHandle t url method net) (fun w1 =>
          pyTry (classifyStatus w1 method url r.status_code ms)
            (teHandle t url method net) (fun w2 =>
            (Except.ok (respResult url method r ms), w2)))
      | NetOutcome.raise e _ => teHandle t url method net w e

/-- One batch task run over the shared state: the coroutine
`self.test_endpoint(endpoint, method)` created at `api_tester.py` line 159. -/
def runSlot (hasClient : Bool) (t : Nat) (method : String)
    (slot : String × NetOutcome) (w : World) : Except PyErr RequestResult × World :=
  test_endpoint hasClient t slot.1 method slot.2 w

/-- Concurrent execution of the batch tasks (`asyncio.gather`, line 163),
parameterised by a completion schedule: the tasks run to completion in the
order listed by `sched` (indices into `slots`), interleaving their effects on
the shared logger in that order.  Each task's raised fault is captured
(`return_exceptions=True`). -/
def gatherSched (hasClient : Bool) (t : Nat) (method : String)
    (slots : List (String × NetOutcome)) :
    List Nat → World → List (Nat × Except PyErr RequestResult) × World
  | [], w => ([], w)
  | i :: rest, w =>
    match slots.get? i with
    | some slot =>
      let (r, w1) := runSlot hasClient t method slot w
      let (tl, w2) := gatherSched hasClient t method slots rest w1
      ((i, r) :: tl, w2)
    | none => gatherSched hasClient t method slots rest w

/-- Reassembly of gathered task outcomes into input order: `asyncio.gather`
returns results positionally, irrespective of completion order. -/
def gatherResults (n : Nat) (outs : List (Nat × Except PyErr RequestResult)) :
    List (Except PyErr RequestResult) :=
  (List.range n).map (fun i =>
    match outs.find? (fun p => p.1 == i) with
    | some p => p.2
    | none => Except.error (PyErr.runtimeError "missing task result"))

/-- Result-processing loop of `test_multiple_endpoints` (`api_tester.py`
lines 166-185): a captured fault that satisfies `isinstance(result,
Exception)` is synthesized into an error record; otherwise the slot's entry
is appended as-is and the guard `result["success"]` runs.  For a
`BaseException`-derived fault (e.g. `asyncio.CancelledError`, which
`gather(return_exceptions=True)` delivers as a result) the isinstance test
is false, so the loop appends the raw exception object and subscripting it
raises `TypeError`, aborting the dispatcher.  The source reads
`result.get("status_code", 0)` only under `result["success"]`; a present key
holding `None` would make Python's `None < 400` raise, but every success
result carries an integer status, so the `getD 0` translation is exact on
reachable data. -/
def processResults (method : String) :
    List (String × Except PyErr RequestResult) → World →
    Except PyErr (List RequestResult × Nat) × World
  | [], w => (Except.ok ([], 0), w)
  | (url, out) :: rest, w =>
    match out with
    | Except.error e =>
      if isExceptionDerived e then
        let errRecord : RequestResult :=
          { url := url, method := method, success := false, status_code := none,
            response_time_ms := none, response_size_bytes := none,
            error := some ("Task failed: " ++ pyStr e), headers := [],
            response_preview := none, retry_attempts := none }
        pyThen (log_error w ("Task failed for " ++ url) (some e)) (fun w1 =>
          pyBind (processResults method rest w1) (fun pr w2 =>
            (Except.ok (errRecord :: pr.1, pr.2), w2)))
      else
        (Except.error (PyErr.typeError
          ("'" ++ pyTypeName e ++ "' object is not subscriptable")), w)
    | Except.ok res =>
      pyBind (processResults method rest w) (fun pr w2 =>
        (Except.ok (res :: pr.1,
          pr.2 + (if res.success && decide (res.status_code.getD 0 < 400) then 1 else 0)), w2))

/-- `ApiTester.test_multiple_endpoints` (`api_tester.py` lines 145-196).
`nets` gives the per-slot network outcomes (one per endpoint) and `sched` the
completion order of the concurrently launched tasks. -/
def test_multiple_endpoints (hasClient : Bool) (t : Nat) (endpoints : List String)
    (method : String) (nets : List NetOutcome) (sched : List Nat) (w : World) :
    Except PyErr (List RequestResult) × World :=
  if endpoints.isEmpty then (Except.ok [], w)
  else
    pyThen (log_event w "api_test_batch"
      [("endpoint_count", PyVal.vint endpoints.length),
       ("method", PyVal.vstr method),
       ("message", PyVal.vstr ("Starting batch test of " ++
         toString endpoints.length ++ " endpoints"))]) (fun w1 =>
      let slots := endpoints.zip nets
      let gathered := gatherSched hasClient t method slots sched w1
      let results := gatherResults slots.length gathered.1
      pyBind (processResults method (endpoints.zip results) gathered.2) (fun pr w3 =>
        let n := endpoints.length
        pyThen (log_event w3 "api_test_batch_complete"
          [("total_endpoints", PyVal.vint n),
           ("successful", PyVal.vint pr.2),
           ("failed", PyVal.vint (n - pr.2)),
           ("success_rate", PyVal.vstr (formatPct pr.2 n)),
           ("message", PyVal.vstr ("Batch test completed: " ++
             toString pr.2 ++ "/" ++ toString n ++ " successful"))]) (fun w4 =>
          (Except.ok pr.1, w4))))

/-- Acceptance test of the retry loop (`api_tester.py` line 218):
`result["success"] and result.get("status_code", 0) < 500`.  As in the batch
count, `getD 0` is exact on reachable data because a success result always
carries an integer status code. -/
def acceptResult (r : RequestResult) : Bool :=
  r.success && decide (r.status_code.getD 0 < 500)

/-- Internal outcome of the retry loop: an early `return result` from inside
the loop, or falling off the end with the last result. -/
inductive RetryOut where
  | early (r : RequestResult) : RetryOut
  | exhausted (last : Option RequestResult) : RetryOut
deriving DecidableEq, Repr

/-- `await asyncio.sleep(delay)` (`api_tester.py` line 212): recorded in the
observable sleep trace. -/
def pySleep (delay : Nat) (w : World) : World :=
  { w with sleeps := w.sleeps ++ [delay] }

/-- Body of `for attempt in range(max_retries + 1)` (`api_tester.py`
lines 204-221), structurally recursive on the remaining iteration count.
`nets i` is the network outcome of attempt `i`. -/
def retryGo (t : Nat) (url method : String) (maxR delay : Nat)
    (nets : Nat → NetOutcome) (hasClient : Bool) :
    Nat → Nat → Option RequestResult → World → Except PyErr RetryOut × World
  | _, 0, last, w => (Except.ok (RetryOut.exhausted last), w)
  | attempt, total + 1, _, w =>
    let step : World × Option PyErr :=
      if 0 < attempt then
        log_event w "api_retry"
          [("url", PyVal.vstr url), ("attempt", PyVal.vint (attempt + 1)),
           ("max_retries", PyVal.vint maxR),
           ("message", PyVal.vstr ("Retrying " ++ url ++ " (attempt " ++
             toString (attempt + 1) ++ "/" ++ toString (maxR + 1) ++ ")"))]
      else (w, none)
    pyThen step (fun w1 =>
      let w2 := if 0 < attempt then pySleep delay w1 else w1
      pyBind (test_endpoint hasClient t url method (nets attempt) w2) (fun result w3 =>
        if acceptResult result then
          if 0 < attempt then
            pyThen (log_success w3 ("Retry successful for " ++ url ++ " on attempt " ++
                toString (attempt + 1))) (fun w4 =>
              (Except.ok (RetryOut.early result), w4))
          else (Except.ok (RetryOut.early result), w3)
        else
          retryGo t url method maxR delay nets hasClient (attempt + 1) total (some result) w3))

/-- `ApiTester.test_endpoint_with_retry` (`api_tester.py` lines 198-234). -/
def test_endpoint_with_retry (hasClient : Bool) (t : Nat) (url method : String)
    (max_retries delay : Nat) (nets : Nat → NetOutcome) (w : World) :
    Except PyErr RequestResult × World :=
  pyBind (retryGo t url method max_retries delay nets hasClient 0 (max_retries + 1) none w)
    (fun out w1 =>
      match out with
      | RetryOut.early r => (Except.ok r, w1)
      | RetryOut.exhausted (some last) =>
        let annotated := { last with retry_attempts := some (max_retries + 1) }
        pyThen (log_error w1 ("All retry attempts failed for " ++ url) none) (fun w2 =>
          (Except.ok annotated, w2))
      | RetryOut.exhausted none =>
        (Except.ok
          { url := url, method := method, success := false, status_code := none,
            response_time_ms := none, response_size_bytes := none,
            error := some "All retry attempts failed", headers := [],
            response_preview := none, retry_attempts := some (max_retries + 1) }, w1))

/-- Projection of a non-raising outcome. -/
def okResult : Except PyErr RequestResult → Option RequestResult
  | Except.ok r => some r
  | Except.error _ => none

/-- Value-level characterization of one `test_endpoint` run: the outcome it
returns, independently of the incoming world (proved in
`test_endpoint_fst`). -/
def teValue (hasClient : Bool) (t : Nat) (url method0 : String) (net : NetOutcome) :
    Except PyErr RequestResult :=
  if hasClient = false then
    Except.error (PyErr.runtimeError "ApiTester must be used as async context manager")
  else
    let method := pyUpperStr method0
    if is_valid_http_method method = false then
      Except.error (PyErr.valueError ("Invalid HTTP method: " ++ method))
    else
      match net with
      | NetOutcome.resp r ms => Except.ok (respResult url method r ms)
      | NetOutcome.raise e ms =>
        match e with
        | PyErr.timeoutExc _ =>
          Except.ok (failResult url method ("Request timeout after " ++ toString t ++ "s") ms)
        | PyErr.connectErrorExc d =>
          Except.ok (failResult url method ("Connection error: " ++ d) ms)
        | e' =>
          if isExceptionDerived e' then
            Except.ok (failResult url method ("Unexpected error: " ++ pyStr e') ms)
          else Except.error e'

/-- Whether the `level` attribute value is a string whose uppercase form
resolves to an integer logging level. -/
def intLevelAttr (v : PyVal) : Bool :=
  match v with
  | PyVal.vstr s =>
    (match resolveLevel (pyUpperStr s) with
     | PyVal.vint _ => true
     | _ => false)
  | _ => false

/-- Event-data mappings whose console mirroring cannot raise: all values
serializable, and the `level` attribute (default "INFO") a string whose
uppercase form resolves to an integer logging level. -/
def safeData (data : List (String × PyVal)) : Bool :=
  data.all (fun p => serializable p.2) &&
    intLevelAttr (dictGet data "level" (PyVal.vstr "INFO"))

/-- Whether an attempt outcome satisfies the retry acceptance test of
`api_tester.py` line 218 (a delivered response with status below 500). -/
def acceptNet : NetOutcome → Bool
  | NetOutcome.resp r _ => decide (r.status_code < 500)
  | NetOutcome.raise _ _ => false

/-- Number of attempts the retry loop performs out of `total` remaining
iterations starting at attempt index `start`: it consumes attempts until the
first accepted one (inclusive), or all of them. -/
def attemptsTaken (nets : Nat → NetOutcome) : Nat → Nat → Nat
  | _, 0 => 0
  | start, total + 1 =>
    1 + (if acceptNet (nets start) then 0 else attemptsTaken nets (start + 1) total)

/-- Number of "api_retry" events the loop emits (one per iteration whose
attempt index is positive, before the attempt runs). -/
def retryEvAdded (nets : Nat → NetOutcome) : Nat → Nat → Nat
  | _, 0 => 0
  | start, total + 1 =>
    (if 0 < start then 1 else 0) +
      (if acceptNet (nets start) then 0 else retryEvAdded nets (start + 1) total)

/-- Per-slot post-processing applied by the batch loop: keep the slot's own
result, or synthesize the "Task failed" record when the slot's task raised. -/
def synthSlot (method : String) (p : String × Except PyErr RequestResult) :
    RequestResult :=
  match p.2 with
  | Except.ok r => r
  | Except.error e =>
    { url := p.1, method := method, success := false, status_code := none,
      response_time_ms := none, response_size_bytes := none,
      error := some ("Task failed: " ++ pyStr e), headers := [],
      response_preview := none, retry_attempts := none }

/-- Specification-side success predicate for the batch summary: the slot's
task returned a result with `success = true` and a present status code below
400. -/
def countedSuccessful (p : String × Except PyErr RequestResult) : Bool :=
  match p.2 with
  | Except.ok r =>
    r.success && (match r.status_code with
                  | some c => decide (c < 400)
                  | none => false)
  | Except.error _ => false

/-- The error string produced by the except-handler that catches a given
exception (`api_tester.py` lines 115, 125, 135). -/
def teHandleMsg (t : Nat) : PyErr → String
  | PyErr.timeoutExc _ => "Request timeout after " ++ toString t ++ "s"
  | PyErr.connectErrorExc d => "Connection error: " ++ d
  | e => "Unexpected error: " ++ pyStr e

/-- Code-side counting predicate of the batch summary
(`api_tester.py` line 184). -/
def countedCode (p : String × Except PyErr RequestResult) : Bool :=
  match p.2 with
  | Except.ok r => r.success && decide (r.status_code.getD 0 < 400)
  | Except.error _ => false

/-- Decidable equality of attempt outcomes. -/
instance : DecidableEq (Except PyErr RequestResult) := fun a b =>
  match a, b with
  | Except.ok x, Except.ok y =>
    if h : x = y then isTrue (by rw [h]) else isFalse (by simp [h])
  | Except.error x, Except.error y =>
    if h : x = y then isTrue (by rw [h]) else isFalse (by simp [h])
  | Except.ok _, Except.error _ => isFalse (by simp)
  | Except.error _, Except.ok _ => isFalse (by simp)

/-- Response fixture used by concrete instantiations. -/
def respWith (c : Nat) : HttpResponse :=
  { status_code := c, headers := [], contentLen := 0, contentRepr := "b",
    text := some "", jsonPretty := none }

section Lemmas

lemma char_toNat_ofNat_valid (m : Nat) (h : m.isValidChar) : (Char.ofNat m).toNat = m := by
  rw [Char.ofNat, dif_pos h]
  rfl

lemma char_toUpper_toUpper (c : Char) : c.toUpper.toUpper = c.toUpper := by
  show Char.toUpper c.toUpper = c.toUpper
  by_cases h : c.toNat ≥ 97 ∧ c.toNat ≤ 122
  · have hu : c.toUpper = Char.ofNat (c.toNat - 32) := by
      rw [Char.toUpper, if_pos h]
    have hv : (c.toNat - 32).isValidChar := Or.inl (by omega)
    have ht : (c.toUpper).toNat = c.toNat - 32 := by
      rw [hu]; exact char_toNat_ofNat_valid _ hv
    rw [Char.toUpper, if_neg]
    rw [ht]; omega
  · have hu : c.toUpper = c := by rw [Char.toUpper, if_neg h]
    rw [hu, Char.toUpper, if_neg h]

lemma pyUpperStr_idem (s : String) : pyUpperStr (pyUpperStr s) = pyUpperStr s := by
  unfold pyUpperStr
  simp [List.map_map, Function.comp_def, char_toUpper_toUpper]

lemma is_valid_pyUpper (s : String) :
    is_valid_http_method (pyUpperStr s) = is_valid_http_method s := by
  unfold is_valid_http_method
  rw [pyUpperStr_idem]

lemma pyThen_none {α : Type} (step : World × Option PyErr) (h : step.2 = none)
    (k : World → Except PyErr α × World) : pyThen step k = k step.1 := by
  obtain ⟨w1, o⟩ := step
  simp only at h
  subst h
  rfl

lemma pyTry_none {α : Type} (step : World × Option PyErr) (h : step.2 = none)
    (handler : World → PyErr → Except PyErr α × World)
    (k : World → Except PyErr α × World) : pyTry step handler k = k step.1 := by
  obtain ⟨w1, o⟩ := step
  simp only at h
  subst h
  rfl

lemma pyBind_eq {α β : Type} (step : Except PyErr α × World)
    (k : α → World → Except PyErr β × World) :
    pyBind step k = match step.1 with
      | Except.error e => (Except.error e, step.2)
      | Except.ok a => k a step.2 := by
  obtain ⟨r, w1⟩ := step
  cases r <;> rfl

end Lemmas

lemma log_event_fst_events (w : World) (ty : String) (data : List (String × PyVal)) :
    (log_event w ty data).1.events =
      w.events ++ [{ timestamp := w.clock, type := ty, data := data }] := by
  unfold log_event
  repeat' split
  all_goals simp [apply_ite]

lemma log_event_fst_sleeps (w : World) (ty : String) (data : List (String × PyVal)) :
    (log_event w ty data).1.sleeps = w.sleeps := by
  unfold log_event
  repeat' split
  all_goals simp [apply_ite]

lemma log_event_snd_safe (w : World) (ty : String) (data : List (String × PyVal))
    (h : safeData data = true) : (log_event w ty data).2 = none := by
  unfold safeData at h
  rw [Bool.and_eq_true] at h
  obtain ⟨h1, h2⟩ := h
  obtain ⟨s, hs⟩ : ∃ s, dictGet data "level" (PyVal.vstr "INFO") = PyVal.vstr s := by
    cases hd : dictGet data "level" (PyVal.vstr "INFO") <;>
      simp [hd, intLevelAttr] at h2 ⊢
  rw [hs] at h2
  simp only [intLevelAttr] at h2
  obtain ⟨lvl, hlv⟩ : ∃ lvl, resolveLevel (pyUpperStr s) = PyVal.vint lvl := by
    cases hr : resolveLevel (pyUpperStr s) <;> rw [hr] at h2 <;> simp at h2 ⊢
  unfold log_event
  rw [hs]
  simp only [pyUpperVal, jsonDumps, h1, if_true, ite_true]
  rw [hlv]
  repeat' split
  all_goals simp [apply_ite]

lemma countType_log_event (w : World) (ty ty' : String) (data : List (String × PyVal)) :
    countType (log_event w ty data).1 ty' =
      countType w ty' + (if ty == ty' then 1 else 0) := by
  unfold countType
  rw [log_event_fst_events]
  by_cases h : ty == ty' <;> simp [List.filter_append, List.filter, h]

lemma log_api_event_snd (w : World) (m u : String) (sc rt : Option Nat)
    (er : Option String) : (log_api_event w m u sc rt er).2 = none := by
  cases sc <;> cases rt <;> cases er <;> exact log_event_snd_safe _ _ _ rfl

lemma log_error_snd (w : World) (msg : String) (er : Option PyErr) :
    (log_error w msg er).2 = none := by
  cases er <;> exact log_event_snd_safe _ _ _ rfl

lemma log_success_snd (w : World) (msg : String) : (log_success w msg).2 = none :=
  log_event_snd_safe _ _ _ rfl

lemma log_warning_snd (w : World) (msg : String) : (log_warning w msg).2 = none :=
  log_event_snd_safe _ _ _ rfl

lemma classifyStatus_snd (w : World) (m u : String) (c ms : Nat) :
    (classifyStatus w m u c ms).2 = none := by
  unfold classifyStatus
  split
  · exact log_success_snd _ _
  · split
    · exact log_warning_snd _ _
    · split
      · exact log_error_snd _ _ _
      · rfl

lemma teHandle_fst (t : Nat) (url method : String) (net : NetOutcome) (w : World)
    (e : PyErr) :
    (teHandle t url method net w e).1 =
      if isExceptionDerived e then
        Except.ok (failResult url method (teHandleMsg t e) (elapsedOf net))
      else Except.error e := by
  cases e <;> simp only [teHandle, teHandleMsg, isExceptionDerived] <;>
    rw [pyThen_none _ (log_api_event_snd _ _ _ _ _ _), pyThen_none _ (log_error_snd _ _ _)] <;>
    simp

lemma teHandle_nonderived (t : Nat) (url method : String) (net : NetOutcome) (w : World)
    (e : PyErr) (h : isExceptionDerived e = false) :
    teHandle t url method net w e = (Except.error e, w) := by
  cases e <;> first | rfl | simp [isExceptionDerived] at h

lemma teHandle_count (t : Nat) (url method : String) (net : NetOutcome) (w : World)
    (e : PyErr) (h : isExceptionDerived e = true) (ty' : String) :
    countType (teHandle t url method net w e).2 ty' =
      countType w ty' + (if "api" == ty' then 1 else 0) +
        (if "error" == ty' then 1 else 0) := by
  cases e
  case baseExc d => simp [isExceptionDerived] at h
  all_goals
    simp only [teHandle]
    rw [pyThen_none _ (log_api_event_snd _ _ _ _ _ _), pyThen_none _ (log_error_snd _ _ _)]
    simp [log_api_event, log_error, countType_log_event, isExceptionDerived, Nat.add_assoc]

lemma teHandle_sleeps (t : Nat) (url method : String) (net : NetOutcome) (w : World)
    (e : PyErr) : (teHandle t url method net w e).2.sleeps = w.sleeps := by
  cases e
  case baseExc d => rfl
  all_goals
    simp only [teHandle]
    rw [pyThen_none _ (log_api_event_snd _ _ _ _ _ _), pyThen_none _ (log_error_snd _ _ _)]
    simp [log_api_event, log_error, log_event_fst_sleeps, isExceptionDerived]

lemma test_endpoint_fst (hc : Bool) (t : Nat) (url method0 : String)
    (net : NetOutcome) (w : World) :
    (test_endpoint hc t url method0 net w).1 = teValue hc t url method0 net := by
  unfold test_endpoint teValue
  cases hc
  · rfl
  · simp only [Bool.true_eq_false, if_false]
    by_cases hv : is_valid_http_method (pyUpperStr method0) = false
    · rw [if_pos hv, if_pos hv]
    · rw [if_neg hv, if_neg hv]
      cases net with
      | resp r ms =>
        dsimp only
        rw [pyTry_none _ (log_api_event_snd _ _ _ _ _ _),
            pyTry_none _ (classifyStatus_snd _ _ _ _ _)]
      | raise e ms =>
        dsimp only
        rw [teHandle_fst]
        cases e <;> simp [isExceptionDerived, teHandleMsg, elapsedOf]

lemma test_endpoint_sleeps (hc : Bool) (t : Nat) (url method0 : String)
    (net : NetOutcome) (w : World) :
    (test_endpoint hc t url method0 net w).2.sleeps = w.sleeps := by
  unfold test_endpoint
  cases hc
  · rfl
  · simp only [Bool.true_eq_false, if_false]
    by_cases hv : is_valid_http_method (pyUpperStr method0) = false
    · rw [if_pos hv]
    · rw [if_neg hv]
      cases net with
      | resp r ms =>
        dsimp only
        rw [pyTry_none _ (log_api_event_snd _ _ _ _ _ _),
            pyTry_none _ (classifyStatus_snd _ _ _ _ _)]
        show (classifyStatus (log_api_event w _ url _ _ none).1 _ url _ ms).1.sleeps = _
        unfold classifyStatus
        split
        · simp [log_success, log_api_event, log_event_fst_sleeps]
        · split
          · simp [log_warning, log_api_event, log_event_fst_sleeps]
          · split
            · simp [log_error, log_api_event, log_event_fst_sleeps]
            · simp [log_api_event, log_event_fst_sleeps]
      | raise e ms => exact teHandle_sleeps _ _ _ _ _ _

lemma classifyStatus_count_other (w : World) (m u : String) (c ms : Nat) (ty' : String)
    (h2 : ("success" == ty') = false) (h3 : ("warning" == ty') = false)
    (h4 : ("error" == ty') = false) :
    countType (classifyStatus w m u c ms).1 ty' = countType w ty' := by
  unfold classifyStatus
  split
  · simp [log_success, countType_log_event, h2]
  · split
    · simp [log_warning, countType_log_event, h3]
    · split
      · simp [log_error, countType_log_event, h4]
      · rfl

lemma test_endpoint_count_api (hc : Bool) (t : Nat) (url method0 : String)
    (net : NetOutcome) (w : World) (hhc : hc = true)
    (hv : is_valid_http_method (pyUpperStr method0) = true)
    (hx : netExcDerived net = true) :
    countType (test_endpoint hc t url method0 net w).2 "api" =
      countType w "api" + 1 := by
  subst hhc
  unfold test_endpoint
  simp only [Bool.true_eq_false, if_false]
  rw [if_neg (by rw [hv]; simp)]
  cases net with
  | resp r ms =>
    dsimp only
    rw [pyTry_none _ (log_api_event_snd _ _ _ _ _ _),
        pyTry_none _ (classifyStatus_snd _ _ _ _ _)]
    show countType (classifyStatus (log_api_event w _ url _ _ none).1 _ url _ ms).1 "api" = _
    rw [classifyStatus_count_other _ _ _ _ _ "api" (by decide) (by decide) (by decide)]
    simp [log_api_event, countType_log_event]
  | raise e ms =>
    dsimp only
    rw [teHandle_count _ _ _ _ _ _ (by simpa [netExcDerived] using hx)]
    simp

lemma test_endpoint_count_other (hc : Bool) (t : Nat) (url method0 : String)
    (net : NetOutcome) (w : World) (ty' : String)
    (h1 : ("api" == ty') = false) (h2 : ("success" == ty') = false)
    (h3 : ("warning" == ty') = false) (h4 : ("error" == ty') = false) :
    countType (test_endpoint hc t url method0 net w).2 ty' = countType w ty' := by
  unfold test_endpoint
  cases hc
  · rfl
  · simp only [Bool.true_eq_false, if_false]
    by_cases hv : is_valid_http_method (pyUpperStr method0) = false
    · rw [if_pos hv]
    · rw [if_neg hv]
      cases net with
      | resp r ms =>
        dsimp only
        rw [pyTry_none _ (log_api_event_snd _ _ _ _ _ _),
            pyTry_none _ (classifyStatus_snd _ _ _ _ _)]
        show countType (classifyStatus (log_api_event w _ url _ _ none).1 _ url _ ms).1 ty' = _
        rw [classifyStatus_count_other _ _ _ _ _ _ h2 h3 h4]
        simp [log_api_event, countType_log_event, h1]
      | raise e ms =>
        dsimp only
        by_cases hd : isExceptionDerived e = true
        · rw [teHandle_count _ _ _ _ _ _ hd]
          simp [h1, h4]
        · rw [teHandle_nonderived _ _ _ _ _ _ (by simpa using hd)]

lemma test_endpoint_invalid (hc : Bool) (t : Nat) (url method0 : String)
    (net : NetOutcome) (w : World) (hhc : hc = true)
    (hv : is_valid_http_method (pyUpperStr method0) = false) :
    test_endpoint hc t url method0 net w =
      (Except.error (PyErr.valueError ("Invalid HTTP method: " ++ pyUpperStr method0)), w) := by
  subst hhc
  unfold test_endpoint
  simp [hv]

lemma teValue_true_valid (t : Nat) (url method0 : String) (net : NetOutcome)
    (hv : is_valid_http_method (pyUpperStr method0) = true) :
    teValue true t url method0 net =
      match net with
      | NetOutcome.resp r ms => Except.ok (respResult url (pyUpperStr method0) r ms)
      | NetOutcome.raise e ms =>
        if isExceptionDerived e then
          Except.ok (failResult url (pyUpperStr method0) (teHandleMsg t e) ms)
        else Except.error e := by
  unfold teValue
  simp only [Bool.true_eq_false, if_false]
  rw [if_neg (by rw [hv]; simp)]
  cases net with
  | resp r ms => rfl
  | raise e ms => cases e <;> simp [isExceptionDerived, teHandleMsg]

lemma teValue_accept (t : Nat) (url method0 : String) (net : NetOutcome)
    (hv : is_valid_http_method (pyUpperStr method0) = true)
    (hx : netExcDerived net = true) :
    ∃ r, teValue true t url method0 net = Except.ok r ∧
      acceptResult r = acceptNet net ∧ r.retry_attempts = none := by
  rw [teValue_true_valid _ _ _ _ hv]
  cases net with
  | resp r ms =>
    exact ⟨respResult url (pyUpperStr method0) r ms, rfl, by
      simp [acceptResult, respResult, acceptNet], rfl⟩
  | raise e ms =>
    have hd : isExceptionDerived e = true := by simpa [netExcDerived] using hx
    refine ⟨failResult url (pyUpperStr method0) (teHandleMsg t e) ms, ?_, ?_, rfl⟩
    · simp [hd]
    · simp [acceptResult, failResult, acceptNet]

/-- C1: every result returned by `test_endpoint` satisfies the RequestResult
invariant: `success = true` implies the status code is present and the error
absent; and when the attempt's request raised (timeout, connection failure or
unexpected failure), the result has `success = false`, no status code, and a
populated error string. -/
theorem c1_request_result_invariant (hc : Bool) (t : Nat) (url method0 : String)
    (net : NetOutcome) (w : World) (res : RequestResult)
    (hrun : (test_endpoint hc t url method0 net w).1 = Except.ok res) :
    (res.success = true → res.status_code.isSome = true ∧ res.error = none) ∧
    (∀ e ms, net = NetOutcome.raise e ms →
      res.success = false ∧ res.status_code = none ∧ res.error.isSome = true) := by
  rw [test_endpoint_fst] at hrun
  unfold teValue at hrun
  cases hc
  · simp at hrun
  · simp only [Bool.true_eq_false, if_false] at hrun
    by_cases hv : is_valid_http_method (pyUpperStr method0) = false
    · rw [if_pos hv] at hrun
      simp at hrun
    · rw [if_neg hv] at hrun
      cases net with
      | resp r ms =>
        dsimp only at hrun
        injection hrun with h
        subst h
        refine ⟨fun _ => ⟨rfl, rfl⟩, fun e' ms' heq => absurd heq (by simp)⟩
      | raise e ms =>
        dsimp only at hrun
        cases e <;>
          first
          | (injection hrun with h
             subst h
             exact ⟨fun h => by simp [failResult] at h, fun e' ms' _ => ⟨rfl, rfl, rfl⟩⟩)
          | simp [isExceptionDerived] at hrun

/-- Witness for C1: a concrete timed-out attempt yields a populated failure
result. -/
theorem c1_request_result_invariant_witness :
    (failResult "https://a.example" "GET" "Request timeout after 30s" 5).success = false ∧
    (failResult "https://a.example" "GET" "Request timeout after 30s" 5).status_code = none ∧
    (failResult "https://a.example" "GET" "Request timeout after 30s" 5).error.isSome = true :=
  (c1_request_result_invariant true 30 "https://a.example" "GET"
    (NetOutcome.raise (PyErr.timeoutExc "") 5) (initialWorld false)
    (failResult "https://a.example" "GET" "Request timeout after 30s" 5)
    rfl).2 (PyErr.timeoutExc "") 5 rfl

/-- C3: a method whose uppercase form is one of the seven verbs never makes
`test_endpoint` raise `InvalidMethod` (modelled as `ValueError`); any other
method always does, before any network I/O: the state is unchanged and the
outcome is the same for every network oracle. -/
theorem c3_method_validation (hc : Bool) (t : Nat) (url method0 : String)
    (net net2 : NetOutcome) (w : World) :
    (is_valid_http_method method0 = true →
      ∀ msg, (test_endpoint hc t url method0 net w).1 ≠
        Except.error (PyErr.valueError msg)) ∧
    (is_valid_http_method method0 = false → hc = true →
      test_endpoint hc t url method0 net w =
        (Except.error (PyErr.valueError ("Invalid HTTP method: " ++ pyUpperStr method0)), w) ∧
      test_endpoint hc t url method0 net w = test_endpoint hc t url method0 net2 w) := by
  constructor
  · intro hval msg
    rw [test_endpoint_fst]
    have hv : is_valid_http_method (pyUpperStr method0) = true := by
      rw [is_valid_pyUpper]; exact hval
    cases hc
    · unfold teValue; simp
    · rw [teValue_true_valid _ _ _ _ hv]
      cases net with
      | resp r ms => simp
      | raise e ms => cases e <;> simp [isExceptionDerived]
  · intro hval hhc
    have hv : is_valid_http_method (pyUpperStr method0) = false := by
      rw [is_valid_pyUpper]; exact hval
    exact ⟨test_endpoint_invalid _ _ _ _ _ _ hhc hv, by
      rw [test_endpoint_invalid _ _ _ _ _ _ hhc hv,
          test_endpoint_invalid _ _ _ _ _ _ hhc hv]⟩

/-- Witness for C3: "get" (lowercase) is accepted, "fetch" is rejected with
`ValueError` and an unchanged state. -/
theorem c3_method_validation_witness :
    (∀ msg, (test_endpoint true 30 "https://a.example" "get"
        (NetOutcome.resp (respWith 200) 3) (initialWorld false)).1 ≠
        Except.error (PyErr.valueError msg)) ∧
    test_endpoint true 30 "https://a.example" "fetch"
        (NetOutcome.resp (respWith 200) 3) (initialWorld false) =
      (Except.error (PyErr.valueError ("Invalid HTTP method: " ++ pyUpperStr "fetch")),
        initialWorld false) :=
  ⟨(c3_method_validation true 30 "https://a.example" "get"
      (NetOutcome.resp (respWith 200) 3) (NetOutcome.resp (respWith 200) 3)
      (initialWorld false)).1 (by decide),
   ((c3_method_validation true 30 "https://a.example" "fetch"
      (NetOutcome.resp (respWith 200) 3) (NetOutcome.resp (respWith 200) 3)
      (initialWorld false)).2 (by decide) rfl).1⟩

/-- C7: within an active session, `InvalidMethod` (`ValueError`) is the only
fault `test_endpoint` raises to its caller; every I/O failure kind of the
spec's taxonomy (timeout, connection failure, unexpected `Exception`-derived
failure) is captured and converted into a populated failure result. -/
theorem c7_fault_containment (t : Nat) (url method0 : String) (net : NetOutcome)
    (w : World) (hx : netExcDerived net = true) :
    (∀ e w', test_endpoint true t url method0 net w = (Except.error e, w') →
      e = PyErr.valueError ("Invalid HTTP method: " ++ pyUpperStr method0)) ∧
    (∀ e ms, net = NetOutcome.raise e ms → is_valid_http_method method0 = true →
      ∃ res, (test_endpoint true t url method0 net w).1 = Except.ok res ∧
        res.success = false ∧ res.error.isSome = true) := by
  constructor
  · intro e w' hrun
    have h1 : (test_endpoint true t url method0 net w).1 = Except.error e := by rw [hrun]
    rw [test_endpoint_fst] at h1
    by_cases hv : is_valid_http_method (pyUpperStr method0) = false
    · unfold teValue at h1
      simp only [Bool.true_eq_false, if_false] at h1
      rw [if_pos hv] at h1
      injection h1 with h1
      exact h1.symm
    · rw [teValue_true_valid _ _ _ _ (by simpa using hv)] at h1
      cases net with
      | resp r ms => simp at h1
      | raise e' ms =>
        have hd : isExceptionDerived e' = true := by simpa [netExcDerived] using hx
        simp [hd] at h1
  · intro e ms hnet hval
    subst hnet
    have hd : isExceptionDerived e = true := by simpa [netExcDerived] using hx
    rw [test_endpoint_fst,
        teValue_true_valid _ _ _ _ (by rw [is_valid_pyUpper]; exact hval)]
    simp only [hd, ite_true]
    exact ⟨_, rfl, rfl, rfl⟩

/-- Witness for C7: a concrete connection failure is converted into a failure
result rather than raised. -/
theorem c7_fault_containment_witness :
    ∃ res, (test_endpoint true 30 "https://a.example" "GET"
        (NetOutcome.raise (PyErr.connectErrorExc "refused") 4) (initialWorld false)).1 =
      Except.ok res ∧ res.success = false ∧ res.error.isSome = true :=
  (c7_fault_containment 30 "https://a.example" "GET"
      (NetOutcome.raise (PyErr.connectErrorExc "refused") 4) (initialWorld false)
      (by decide)).2 _ _ rfl (by decide)

lemma basic_format_raises (w : World) :
    (log_event w "error" [("level", PyVal.vstr "basic_format")]).2 =
      some (PyErr.typeError "level must be an integer") := by
  obtain ⟨v, c, ev, co, sl⟩ := w
  cases v <;> rfl

/-- C8 (amended): `log_event` always appends exactly one timestamped event
(before any console mirroring); it returns without raising whenever the event
is not mirrored to the console, or whenever its attribute data is well-formed
(all values JSON-serializable and the `level` attribute — "INFO" when absent —
a string whose uppercase form resolves to an integer logging level, with
unknown names falling back to INFO).  The original claim's "never fails" is
refuted by `c8_log_event_counterexample` (non-string level value →
AttributeError); and the well-formedness boundary is tight in the level
dimension too: a serializable string level such as "basic_format" names the
non-integer module attribute `logging.BASIC_FORMAT`, and `Logger.log` then
raises `TypeError: level must be an integer` on the mirrored event (fourth
conjunct). -/
theorem c8_log_event_amended (w : World) (ty : String) (data : List (String × PyVal)) :
    (log_event w ty data).1.events =
      w.events ++ [{ timestamp := w.clock, type := ty, data := data }] ∧
    (mirrored w.verbose ty = false → (log_event w ty data).2 = none) ∧
    (safeData data = true → (log_event w ty data).2 = none) ∧
    (log_event w "error" [("level", PyVal.vstr "basic_format")]).2 =
      some (PyErr.typeError "level must be an integer") := by
  refine ⟨log_event_fst_events _ _ _, ?_, log_event_snd_safe _ _ _,
    basic_format_raises w⟩
  intro hm
  unfold log_event
  simp [hm]

/-- Witness for C8 (amended): a concrete unmirrored event is appended and
raises nothing. -/
theorem c8_log_event_amended_witness :
    (log_event (initialWorld false) "api" [("x", PyVal.vint 1)]).1.events =
      [{ timestamp := 0, type := "api", data := [("x", PyVal.vint 1)] }] ∧
    (log_event (initialWorld false) "api" [("x", PyVal.vint 1)]).2 = none :=
  ⟨(c8_log_event_amended (initialWorld false) "api" [("x", PyVal.vint 1)]).1,
   (c8_log_event_amended (initialWorld false) "api" [("x", PyVal.vint 1)]).2.1 (by decide)⟩

/-- C8 counterexample: recording an "error" event whose `level` attribute is
the integer 5 raises (`.upper()` on an int) instead of returning normally, so
`log_event` does not "never fail". -/
theorem c8_log_event_counterexample :
    (log_event (initialWorld false) "error" [("level", PyVal.vint 5)]).2 ≠ none := by
  decide

/-- C10: called on the empty endpoint list, the batch dispatcher returns the
empty result list and leaves the world untouched: no batch-start and no
batch-complete event is emitted, so the success-rate computation (which
divides by the endpoint count) is never reached. -/
theorem c10_empty_batch (hc : Bool) (t : Nat) (method : String)
    (nets : List NetOutcome) (sched : List Nat) (w : World) :
    test_multiple_endpoints hc t [] method nets sched w = (Except.ok [], w) := rfl

lemma retry_zero_run (hc : Bool) (t : Nat) (url method0 : String) (delay : Nat)
    (nets : Nat → NetOutcome) (w : World) :
    test_endpoint_with_retry hc t url method0 0 delay nets w =
      match test_endpoint hc t url method0 (nets 0) w with
      | (Except.error e, w3) => (Except.error e, w3)
      | (Except.ok r, w3) =>
        if acceptResult r then (Except.ok r, w3)
        else (Except.ok { r with retry_attempts := some 1 },
          (log_error w3 ("All retry attempts failed for " ++ url) none).1) := by
  rcases hte : test_endpoint hc t url method0 (nets 0) w with ⟨v, w3⟩
  unfold test_endpoint_with_retry
  simp only [retryGo, Nat.lt_irrefl, ite_false]
  rw [pyThen_none (w, none) rfl, hte]
  cases v with
  | error e => rfl
  | ok r =>
    dsimp only [pyBind]
    by_cases ha : acceptResult r = true
    · rw [if_pos ha, if_pos ha]
    · rw [if_neg ha, if_neg ha]
      dsimp only [pyBind]
      rw [pyThen_none _ (log_error_snd _ _ _)]

/-- C5 (amended): with `max_retries = 0` the retry wrapper performs the one
direct attempt, never sleeps and emits no retry event; when the attempt
raises, or returns an accepted result (`success` and status < 500), its
outcome and final state are exactly those of the direct `test_endpoint`
call; when the attempt's result is not accepted, the returned result
additionally carries `retry_attempts = 1` and one extra error event is
logged, so the behaviours are not identical in that case (refuted as
originally stated by `c5_retry_zero_counterexample`). -/
theorem c5_retry_zero_amended (hc : Bool) (t : Nat) (url method0 : String)
    (delay : Nat) (nets : Nat → NetOutcome) (w : World) :
    countType (test_endpoint_with_retry hc t url method0 0 delay nets w).2 "api_retry" =
      countType w "api_retry" ∧
    (test_endpoint_with_retry hc t url method0 0 delay nets w).2.sleeps = w.sleeps ∧
    (∀ e w', test_endpoint hc t url method0 (nets 0) w = (Except.error e, w') →
      test_endpoint_with_retry hc t url method0 0 delay nets w = (Except.error e, w')) ∧
    (∀ r w', test_endpoint hc t url method0 (nets 0) w = (Except.ok r, w') →
      (acceptResult r = true →
        test_endpoint_with_retry hc t url method0 0 delay nets w = (Except.ok r, w')) ∧
      (acceptResult r = false →
        test_endpoint_with_retry hc t url method0 0 delay nets w =
          (Except.ok { r with retry_attempts := some 1 },
            (log_error w' ("All retry attempts failed for " ++ url) none).1))) := by
  have hcount := test_endpoint_count_other hc t url method0 (nets 0) w "api_retry"
    (by decide) (by decide) (by decide) (by decide)
  have hsleep := test_endpoint_sleeps hc t url method0 (nets 0) w
  rw [retry_zero_run]
  rcases hte : test_endpoint hc t url method0 (nets 0) w with ⟨v, w3⟩
  rw [hte] at hcount hsleep
  refine ⟨?_, ?_, ?_, ?_⟩
  · cases v with
    | error e => exact hcount
    | ok r =>
      dsimp only
      by_cases ha : acceptResult r = true
      · rw [if_pos ha]; exact hcount
      · rw [if_neg ha]
        show countType (log_error w3 _ none).1 "api_retry" = _
        rw [show log_error w3 ("All retry attempts failed for " ++ url) none =
              log_event w3 "error" [("message",
                PyVal.vstr ("All retry attempts failed for " ++ url)),
                ("level", PyVal.vstr "ERROR")] from rfl,
            countType_log_event]
        simpa using hcount
  · cases v with
    | error e => exact hsleep
    | ok r =>
      dsimp only
      by_cases ha : acceptResult r = true
      · rw [if_pos ha]; exact hsleep
      · rw [if_neg ha]
        show (log_error w3 _ none).1.sleeps = _
        rw [show log_error w3 ("All retry attempts failed for " ++ url) none =
              log_event w3 "error" [("message",
                PyVal.vstr ("All retry attempts failed for " ++ url)),
                ("level", PyVal.vstr "ERROR")] from rfl,
            log_event_fst_sleeps]
        exact hsleep
  · intro e w' heq
    injection heq with h1 h2
    subst h1
    subst h2
    rfl
  · intro r w' heq
    injection heq with h1 h2
    subst h1
    subst h2
    dsimp only
    constructor
    · intro ha; rw [if_pos ha]
    · intro ha; rw [if_neg (by rw [ha]; simp)]

/-- C5 counterexample: with `max_retries = 0` against a 503 response, the
retry wrapper's returned result differs from the direct call's result (the
wrapper attaches `retry_attempts = 1` and the notions of "behaves
identically" fail). -/
theorem c5_retry_zero_counterexample :
    (test_endpoint_with_retry true 30 "https://a.example" "GET" 0 1
        (fun _ => NetOutcome.resp (respWith 503) 10) (initialWorld false)).1 ≠
      (test_endpoint true 30 "https://a.example" "GET"
        (NetOutcome.resp (respWith 503) 10) (initialWorld false)).1 := by
  intro h
  have h2 : (okResult (test_endpoint_with_retry true 30 "https://a.example" "GET" 0 1
        (fun _ => NetOutcome.resp (respWith 503) 10) (initialWorld false)).1).map
          (fun r => r.retry_attempts) =
      (okResult (test_endpoint true 30 "https://a.example" "GET"
        (NetOutcome.resp (respWith 503) 10) (initialWorld false)).1).map
          (fun r => r.retry_attempts) := by rw [h]
  rw [show (okResult (test_endpoint_with_retry true 30 "https://a.example" "GET" 0 1
        (fun _ => NetOutcome.resp (respWith 503) 10) (initialWorld false)).1).map
          (fun r => r.retry_attempts) = some (some 1) from rfl,
      show (okResult (test_endpoint true 30 "https://a.example" "GET"
        (NetOutcome.resp (respWith 503) 10) (initialWorld false)).1).map
          (fun r => r.retry_attempts) = some none from rfl] at h2
  simp at h2

/-- Witness for C5 (amended) at a concrete accepted attempt (status 200):
wrapper and direct call agree exactly. -/
theorem c5_retry_zero_amended_witness :
    test_endpoint_with_retry true 30 "https://b.example" "GET" 0 1
        (fun _ => NetOutcome.resp (respWith 200) 7) (initialWorld false) =
      (Except.ok (respResult "https://b.example" "GET" (respWith 200) 7),
        (test_endpoint true 30 "https://b.example" "GET"
          (NetOutcome.resp (respWith 200) 7) (initialWorld false)).2) :=
  ((c5_retry_zero_amended true 30 "https://b.example" "GET" 1
      (fun _ => NetOutcome.resp (respWith 200) 7) (initialWorld false)).2.2.2
    (respResult "https://b.example" "GET" (respWith 200) 7)
    (test_endpoint true 30 "https://b.example" "GET"
      (NetOutcome.resp (respWith 200) 7) (initialWorld false)).2
    rfl).1 (by decide)

lemma retryEvAdded_pos (nets : Nat → NetOutcome) :
    ∀ total start, 0 < start →
      retryEvAdded nets start total = attemptsTaken nets start total := by
  intro total
  induction total with
  | zero => intro start _; rfl
  | succ total ih =>
    intro start h
    simp only [retryEvAdded, attemptsTaken, if_pos h]
    by_cases ha : acceptNet (nets start) = true
    · rw [if_pos ha, if_pos ha]
    · rw [if_neg ha, if_neg ha, ih (start + 1) (by omega)]

lemma retryEvAdded_zero (nets : Nat → NetOutcome) (total : Nat) :
    retryEvAdded nets 0 (total + 1) = attemptsTaken nets 0 (total + 1) - 1 := by
  simp only [retryEvAdded, attemptsTaken]
  rw [if_neg (by omega : ¬(0 : Nat) < 0)]
  by_cases ha : acceptNet (nets 0) = true
  · rw [if_pos ha, if_pos ha]
  · rw [if_neg ha, if_neg ha, retryEvAdded_pos nets total 1 (by omega)]
    simp only [Nat.zero_add]
    omega

lemma countType_pySleep (d : Nat) (w : World) (ty : String) :
    countType (pySleep d w) ty = countType w ty := rfl

lemma countType_log_success (w : World) (m ty' : String) :
    countType (log_success w m).1 ty' =
      countType w ty' + (if "success" == ty' then 1 else 0) :=
  countType_log_event _ _ _ _

lemma countType_log_error (w : World) (m : String) (er : Option PyErr) (ty' : String) :
    countType (log_error w m er).1 ty' =
      countType w ty' + (if "error" == ty' then 1 else 0) :=
  countType_log_event _ _ _ _

lemma log_retry_event_snd (w : World) (url : String) (a m : Int) (msg : String) :
    (log_event w "api_retry" [("url", PyVal.vstr url), ("attempt", PyVal.vint a),
      ("max_retries", PyVal.vint m), ("message", PyVal.vstr msg)]).2 = none :=
  log_event_snd_safe _ _ _ rfl

lemma retryGo_run (t : Nat) (url method0 : String) (maxR delay : Nat)
    (nets : Nat → NetOutcome)
    (hv : is_valid_http_method (pyUpperStr method0) = true)
    (hnet : ∀ i, netExcDerived (nets i) = true) :
    ∀ (total start : Nat) (last : Option RequestResult) (w : World),
      ∃ out w',
        retryGo t url method0 maxR delay nets true start total last w =
          (Except.ok out, w') ∧
        countType w' "api" = countType w "api" + attemptsTaken nets start total ∧
        countType w' "api_retry" =
          countType w "api_retry" + retryEvAdded nets start total ∧
        (match out with
         | RetryOut.early r =>
             (∃ j, j < total ∧ acceptNet (nets (start + j)) = true) ∧
               r.retry_attempts = none
         | RetryOut.exhausted l =>
             (∀ j, j < total → acceptNet (nets (start + j)) = false) ∧
             (total = 0 → l = last) ∧ (0 < total → ∃ r1, l = some r1)) := by
  intro total
  induction total with
  | zero =>
    intro start last w
    refine ⟨RetryOut.exhausted last, w, rfl, by simp [attemptsTaken],
      by simp [retryEvAdded], ?_, ?_, ?_⟩
    · intro j hj; exact absurd hj (by omega)
    · intro _; rfl
    · intro h; exact absurd h (by omega)
  | succ total ih =>
    intro start last w
    simp only [retryGo]
    by_cases hstart : 0 < start
    · rw [if_pos hstart, pyThen_none _ (log_retry_event_snd _ _ _ _ _)]
      rw [if_pos hstart, pyBind_eq, test_endpoint_fst]
      obtain ⟨r, hr, hacc, hnone⟩ :=
        teValue_accept t url method0 (nets start) hv (hnet start)
      rw [hr]
      dsimp only
      by_cases ha : acceptNet (nets start) = true
      · rw [hacc, if_pos ha, if_pos hstart, pyThen_none _ (log_success_snd _ _)]
        refine ⟨RetryOut.early r, _, rfl, ?_, ?_, ⟨0, by omega, by
          rw [Nat.add_zero]; exact ha⟩, hnone⟩
        · rw [countType_log_success,
              test_endpoint_count_api true t url method0 (nets start) _ rfl hv (hnet start),
              countType_pySleep, countType_log_event]
          simp only [attemptsTaken, if_pos ha]
          simp
        · rw [countType_log_success,
              test_endpoint_count_other true t url method0 (nets start) _ "api_retry"
                (by decide) (by decide) (by decide) (by decide),
              countType_pySleep, countType_log_event]
          simp only [retryEvAdded, if_pos ha, if_pos hstart]
          simp
      · rw [hacc, if_neg ha]
        obtain ⟨out, w', hrun, hapi, hretry, hout⟩ := ih (start + 1) (some r)
          (test_endpoint true t url method0 (nets start)
            (pySleep delay ((log_event w "api_retry"
              [("url", PyVal.vstr url), ("attempt", PyVal.vint ((start : Int) + 1)),
               ("max_retries", PyVal.vint (maxR : Int)),
               ("message", PyVal.vstr ("Retrying " ++ url ++ " (attempt " ++
                 toString (start + 1) ++ "/" ++ toString (maxR + 1) ++ ")"))]).1))).2
        rw [test_endpoint_count_api true t url method0 (nets start) _ rfl hv (hnet start),
            countType_pySleep, countType_log_event] at hapi
        rw [test_endpoint_count_other true t url method0 (nets start) _ "api_retry"
              (by decide) (by decide) (by decide) (by decide),
            countType_pySleep, countType_log_event] at hretry
        refine ⟨out, w', hrun, ?_, ?_, ?_⟩
        · rw [hapi]
          simp only [attemptsTaken, if_neg ha]
          simp only [show (("api_retry" : String) == "api") = false from rfl,
            Bool.false_eq_true, if_false]
          omega
        · rw [hretry]
          simp only [retryEvAdded, if_neg ha, if_pos hstart]
          simp only [show (("api_retry" : String) == "api_retry") = true from rfl,
            eq_self_iff_true, if_true]
          omega
        · cases out with
          | early r' =>
            obtain ⟨⟨j, hj, hjacc⟩, hnone'⟩ := hout
            refine ⟨⟨j + 1, by omega, ?_⟩, hnone'⟩
            rw [show start + (j + 1) = start + 1 + j from by omega]
            exact hjacc
          | exhausted l =>
            obtain ⟨hall, hzero, hpos⟩ := hout
            refine ⟨?_, by omega, ?_⟩
            · intro j hj
              cases j with
              | zero => rw [Nat.add_zero]; simpa using ha
              | succ k =>
                rw [show start + (k + 1) = start + 1 + k from by omega]
                exact hall k (by omega)
            · intro _
              cases total with
              | zero => exact ⟨r, hzero rfl⟩
              | succ total' => exact hpos (by omega)
    · rw [if_neg hstart, pyThen_none (w, none) rfl]
      dsimp only
      rw [if_neg hstart, pyBind_eq, test_endpoint_fst]
      obtain ⟨r, hr, hacc, hnone⟩ :=
        teValue_accept t url method0 (nets start) hv (hnet start)
      rw [hr]
      dsimp only
      by_cases ha : acceptNet (nets start) = true
      · rw [hacc, if_pos ha, if_neg hstart]
        refine ⟨RetryOut.early r, _, rfl, ?_, ?_, ⟨0, by omega, by
          rw [Nat.add_zero]; exact ha⟩, hnone⟩
        · rw [test_endpoint_count_api true t url method0 (nets start) _ rfl hv (hnet start)]
          simp only [attemptsTaken, if_pos ha]
        · rw [test_endpoint_count_other true t url method0 (nets start) _ "api_retry"
                (by decide) (by decide) (by decide) (by decide)]
          simp only [retryEvAdded, if_pos ha, if_neg hstart]
          simp
      · rw [hacc, if_neg ha]
        obtain ⟨out, w', hrun, hapi, hretry, hout⟩ := ih (start + 1) (some r)
          (test_endpoint true t url method0 (nets start) w).2
        rw [test_endpoint_count_api true t url method0 (nets start) _ rfl hv
              (hnet start)] at hapi
        rw [test_endpoint_count_other true t url method0 (nets start) _ "api_retry"
              (by decide) (by decide) (by decide) (by decide)] at hretry
        refine ⟨out, w', hrun, ?_, ?_, ?_⟩
        · rw [hapi]
          simp only [attemptsTaken, if_neg ha]
          omega
        · rw [hretry]
          simp only [retryEvAdded, if_neg ha, if_neg hstart]
          omega
        · cases out with
          | early r' =>
            obtain ⟨⟨j, hj, hjacc⟩, hnone'⟩ := hout
            refine ⟨⟨j + 1, by omega, ?_⟩, hnone'⟩
            rw [show start + (j + 1) = start + 1 + j from by omega]
            exact hjacc
          | exhausted l =>
            obtain ⟨hall, hzero, hpos⟩ := hout
            refine ⟨?_, by omega, ?_⟩
            · intro j hj
              cases j with
              | zero => rw [Nat.add_zero]; simpa using ha
              | succ k =>
                rw [show start + (k + 1) = start + 1 + k from by omega]
                exact hall k (by omega)
            · intro _
              cases total with
              | zero => exact ⟨r, hzero rfl⟩
              | succ total' => exact hpos (by omega)

/-- C4: the retry loop stops early exactly when an attempt is accepted
(`success = true` with status below 500, i.e. the attempt's outcome satisfies
`acceptNet`): the number of attempts (observable as "api" events) is
`attemptsTaken`, which consumes outcomes up to and including the first
accepted one, the number of "api_retry" events is one less, and the final
result is annotated with `retry_attempts` exactly when no attempt within the
budget was accepted.  Consequently, with `max_retries = 2` against a target
always returning 503 there are exactly 3 attempts, 2 retry events, and
`retry_attempts = 3`; and against a target returning 404 on the first attempt
the loop stops immediately with `success = true`, `status_code = 404`, no
retry event and no sleep. -/
theorem c4_retry_semantics :
    (∀ (t : Nat) (url method0 : String) (R delay : Nat) (nets : Nat → NetOutcome)
       (w : World),
      is_valid_http_method method0 = true →
      (∀ i : Nat, netExcDerived (nets i) = true) →
      ∃ res w',
        test_endpoint_with_retry true t url method0 R delay nets w =
          (Except.ok res, w') ∧
        countType w' "api" = countType w "api" + attemptsTaken nets 0 (R + 1) ∧
        countType w' "api_retry" =
          countType w "api_retry" + (attemptsTaken nets 0 (R + 1) - 1) ∧
        (res.retry_attempts = none ↔ ∃ i, i ≤ R ∧ acceptNet (nets i) = true)) ∧
    (countType (test_endpoint_with_retry true 30 "https://a.example" "GET" 2 1
        (fun _ => NetOutcome.resp (respWith 503) 10) (initialWorld false)).2 "api" = 3 ∧
     countType (test_endpoint_with_retry true 30 "https://a.example" "GET" 2 1
        (fun _ => NetOutcome.resp (respWith 503) 10) (initialWorld false)).2
          "api_retry" = 2 ∧
     (okResult (test_endpoint_with_retry true 30 "https://a.example" "GET" 2 1
        (fun _ => NetOutcome.resp (respWith 503) 10) (initialWorld false)).1).map
          (fun r => r.retry_attempts) = some (some 3)) ∧
    ((okResult (test_endpoint_with_retry true 30 "https://a.example" "GET" 2 1
        (fun _ => NetOutcome.resp (respWith 404) 9) (initialWorld false)).1).map
          (fun r => (r.success, r.status_code)) = some (true, some 404) ∧
     countType (test_endpoint_with_retry true 30 "https://a.example" "GET" 2 1
        (fun _ => NetOutcome.resp (respWith 404) 9) (initialWorld false)).2
          "api_retry" = 0 ∧
     (test_endpoint_with_retry true 30 "https://a.example" "GET" 2 1
        (fun _ => NetOutcome.resp (respWith 404) 9) (initialWorld false)).2.sleeps = [] ∧
     countType (test_endpoint_with_retry true 30 "https://a.example" "GET" 2 1
        (fun _ => NetOutcome.resp (respWith 404) 9) (initialWorld false)).2 "api" = 1) := by
  refine ⟨?_, by decide, by decide⟩
  intro t url method0 R delay nets w hval hnet
  have hv : is_valid_http_method (pyUpperStr method0) = true := by
    rw [is_valid_pyUpper]; exact hval
  obtain ⟨out, w1, hrun, hapi, hretry, hout⟩ :=
    retryGo_run t url method0 R delay nets hv hnet (R + 1) 0 none w
  unfold test_endpoint_with_retry
  rw [hrun]
  dsimp only [pyBind]
  cases out with
  | early r =>
    obtain ⟨⟨j, hj, hjacc⟩, hnone⟩ := hout
    simp only [Nat.zero_add] at hjacc
    refine ⟨r, w1, rfl, hapi, ?_, ?_⟩
    · rw [hretry, retryEvAdded_zero]
    · exact iff_of_true hnone ⟨j, by omega, hjacc⟩
  | exhausted l =>
    obtain ⟨hall, hzero, hpos⟩ := hout
    simp only [Nat.zero_add] at hall
    obtain ⟨r1, hl⟩ := hpos (by omega)
    subst hl
    dsimp only
    rw [pyThen_none _ (log_error_snd _ _ _)]
    refine ⟨_, _, rfl, ?_, ?_, ?_⟩
    · rw [countType_log_error, hapi]
      simp
    · rw [countType_log_error, hretry, retryEvAdded_zero]
      simp
    · apply iff_of_false
      · simp
      · rintro ⟨i, hi, hacc⟩
        rw [hall i (by omega)] at hacc
        exact absurd hacc (by simp)

/-- Witness for C4's general part at a concrete always-200 target with
`max_retries = 1`. -/
theorem c4_retry_semantics_witness :
    ∃ res w',
      test_endpoint_with_retry true 30 "https://c.example" "GET" 1 1
        (fun _ => NetOutcome.resp (respWith 200) 3) (initialWorld false) =
        (Except.ok res, w') ∧
      countType w' "api" = countType (initialWorld false) "api" +
        attemptsTaken (fun _ => NetOutcome.resp (respWith 200) 3) 0 (1 + 1) ∧
      countType w' "api_retry" = countType (initialWorld false) "api_retry" +
        (attemptsTaken (fun _ => NetOutcome.resp (respWith 200) 3) 0 (1 + 1) - 1) ∧
      (res.retry_attempts = none ↔ ∃ i, i ≤ 1 ∧
        acceptNet ((fun _ => NetOutcome.resp (respWith 200) 3) i) = true) :=
  c4_retry_semantics.1 30 "https://c.example" "GET" 1 1
    (fun _ => NetOutcome.resp (respWith 200) 3) (initialWorld false)
    (by decide) (fun i => rfl)

lemma log_batch_event_snd (w : World) (n : Int) (method msg : String) :
    (log_event w "api_test_batch" [("endpoint_count", PyVal.vint n),
      ("method", PyVal.vstr method), ("message", PyVal.vstr msg)]).2 = none :=
  log_event_snd_safe _ _ _ rfl

lemma log_batch_complete_snd (w : World) (a b c : Int) (rate msg : String) :
    (log_event w "api_test_batch_complete" [("total_endpoints", PyVal.vint a),
      ("successful", PyVal.vint b), ("failed", PyVal.vint c),
      ("success_rate", PyVal.vstr rate), ("message", PyVal.vstr msg)]).2 = none :=
  log_event_snd_safe _ _ _ rfl

lemma teValue_ok_url (hc : Bool) (t : Nat) (url method0 : String)
    (net : NetOutcome) (r : RequestResult)
    (h : teValue hc t url method0 net = Except.ok r) : r.url = url := by
  unfold teValue at h
  cases hc
  · simp at h
  · simp only [Bool.true_eq_false, if_false] at h
    by_cases hv : is_valid_http_method (pyUpperStr method0) = false
    · rw [if_pos hv] at h
      simp at h
    · rw [if_neg hv] at h
      cases net with
      | resp rr ms =>
        dsimp only at h
        injection h with h
        subst h
        rfl
      | raise e ms =>
        dsimp only at h
        cases e <;>
          first
          | (injection h with h
             subst h
             rfl)
          | simp [isExceptionDerived] at h

lemma gatherSched_fst (hc : Bool) (t : Nat) (method : String)
    (slots : List (String × NetOutcome)) :
    ∀ (sched : List Nat) (w : World),
      (gatherSched hc t method slots sched w).1 =
        sched.filterMap (fun j => (slots[j]?).map
          (fun s => (j, teValue hc t s.1 method s.2))) := by
  intro sched
  induction sched with
  | nil => intro w; rfl
  | cons j rest ih =>
    intro w
    simp only [gatherSched, List.filterMap_cons]
    rw [List.get?_eq_getElem?]
    cases hj : slots[j]? with
    | none => exact ih w
    | some s =>
      dsimp only [Option.map_some']
      have hv := test_endpoint_fst hc t s.1 method s.2 w
      show (j, (runSlot hc t method s w).1) :: _ = _
      rw [show (runSlot hc t method s w).1 = teValue hc t s.1 method s.2 from hv,
          ih (runSlot hc t method s w).2]

lemma find_gathered (hc : Bool) (t : Nat) (method : String)
    (slots : List (String × NetOutcome)) (i : Nat) (si : String × NetOutcome)
    (hsi : slots[i]? = some si) :
    ∀ sched : List Nat, i ∈ sched →
      (sched.filterMap (fun j => (slots[j]?).map
        (fun s => (j, teValue hc t s.1 method s.2)))).find?
          (fun p => p.1 == i) = some (i, teValue hc t si.1 method si.2) := by
  intro sched
  induction sched with
  | nil => intro h; cases h
  | cons j rest ih =>
    intro hmem
    by_cases hji : j = i
    · subst hji
      simp only [List.filterMap_cons, hsi, Option.map_some']
      simp [List.find?]
    · simp only [List.filterMap_cons]
      have hmem' : i ∈ rest := by
        rcases List.mem_cons.1 hmem with h | h
        · exact absurd h.symm hji
        · exact h
      cases hj : slots[j]? with
      | none => exact ih hmem'
      | some sj =>
        dsimp only [Option.map_some']
        rw [List.find?_cons_of_neg]
        · exact ih hmem'
        · simp [hji]

lemma gatherResults_perm (hc : Bool) (t : Nat) (method : String)
    (slots : List (String × NetOutcome)) (sched : List Nat)
    (hperm : List.Perm sched (List.range slots.length)) :
    gatherResults slots.length
      (sched.filterMap (fun j => (slots[j]?).map
        (fun s => (j, teValue hc t s.1 method s.2)))) =
      slots.map (fun s => teValue hc t s.1 method s.2) := by
  unfold gatherResults
  apply List.ext_getElem
  · simp
  · intro i h1 h2
    have hi : i < slots.length := by simpa using h2
    have hmem : i ∈ sched := hperm.mem_iff.2 (List.mem_range.2 hi)
    have hsi : slots[i]? = some slots[i] := List.getElem?_eq_getElem hi
    simp only [List.getElem_map, List.getElem_range]
    rw [find_gathered hc t method slots i slots[i] hsi sched hmem]

lemma zip_map_teValue (hc : Bool) (t : Nat) (method : String) :
    ∀ (endpoints : List String) (nets : List NetOutcome),
      nets.length = endpoints.length →
      endpoints.zip ((endpoints.zip nets).map
          (fun s => teValue hc t s.1 method s.2)) =
        (endpoints.zip nets).map
          (fun s => (s.1, teValue hc t s.1 method s.2)) := by
  intro endpoints
  induction endpoints with
  | nil => intro nets _; rfl
  | cons e es ih =>
    intro nets hlen
    cases nets with
    | nil => simp at hlen
    | cons n ns =>
      simp only [List.zip_cons_cons, List.map_cons]
      rw [ih ns (by simpa using hlen)]

lemma processResults_run (method : String) :
    ∀ (pairs : List (String × Except PyErr RequestResult)) (w : World),
      (∀ p ∈ pairs, ∀ e, p.2 = Except.error e → isExceptionDerived e = true) →
      ∃ w', processResults method pairs w =
        (Except.ok (pairs.map (synthSlot method), pairs.countP countedCode), w') := by
  intro pairs
  induction pairs with
  | nil => intro w _; exact ⟨w, rfl⟩
  | cons p rest ih =>
    intro w hex
    obtain ⟨url, out⟩ := p
    cases out with
    | error e =>
      have hd : isExceptionDerived e = true :=
        hex (url, Except.error e) (List.mem_cons_self _ _) e rfl
      simp only [processResults]
      rw [if_pos hd, pyThen_none _ (log_error_snd _ _ _)]
      obtain ⟨w', hw'⟩ := ih (log_error w ("Task failed for " ++ url) (some e)).1
        (fun q hq => hex q (List.mem_cons_of_mem _ hq))
      rw [hw']
      refine ⟨w', ?_⟩
      dsimp only [pyBind]
      simp [synthSlot, countedCode, List.countP_cons]
    | ok res =>
      simp only [processResults]
      obtain ⟨w', hw'⟩ := ih w (fun q hq => hex q (List.mem_cons_of_mem _ hq))
      rw [hw']
      refine ⟨w', ?_⟩
      dsimp only [pyBind]
      simp only [List.map_cons, List.countP_cons, synthSlot, countedCode]

lemma processResults_ok_cnt (method : String) :
    ∀ (pairs : List (String × Except PyErr RequestResult)) (w : World)
      (out : List RequestResult) (cnt : Nat) (w' : World),
      processResults method pairs w = (Except.ok (out, cnt), w') →
      cnt = pairs.countP countedCode := by
  intro pairs
  induction pairs with
  | nil =>
    intro w out cnt w' h
    injection h with h1 _
    injection h1 with h1
    injection h1 with _ hb
    rw [← hb]
    rfl
  | cons p rest ih =>
    intro w out cnt w' h
    obtain ⟨url, o⟩ := p
    cases o with
    | error e =>
      simp only [processResults] at h
      by_cases hd : isExceptionDerived e = true
      · rw [if_pos hd, pyThen_none _ (log_error_snd _ _ _)] at h
        rcases hrec : processResults method rest
            (log_error w ("Task failed for " ++ url) (some e)).1 with ⟨r2, w2⟩
        rw [pyBind_eq, hrec] at h
        cases r2 with
        | error e2 => exact absurd h (by simp)
        | ok pr =>
          dsimp only at h
          injection h with h1 _
          injection h1 with h1
          injection h1 with _ hb
          have hcv : pr.2 = List.countP countedCode rest :=
            ih _ pr.1 pr.2 w2 (by rw [hrec])
          rw [← hb, hcv, List.countP_cons]
          simp [countedCode]
      · rw [if_neg hd] at h
        exact absurd h (by simp)
    | ok res =>
      simp only [processResults] at h
      rcases hrec : processResults method rest w with ⟨r2, w2⟩
      rw [pyBind_eq, hrec] at h
      cases r2 with
      | error e2 => exact absurd h (by simp)
      | ok pr =>
        dsimp only at h
        injection h with h1 _
        injection h1 with h1
        injection h1 with _ hb
        have hcv : pr.2 = List.countP countedCode rest :=
          ih _ pr.1 pr.2 w2 (by rw [hrec])
        rw [← hb, hcv, List.countP_cons]
        simp [countedCode]

lemma batch_run (hc : Bool) (t : Nat) (endpoints : List String) (method : String)
    (nets : List NetOutcome) (sched : List Nat) (w : World)
    (hlen : nets.length = endpoints.length)
    (hperm : List.Perm sched (List.range endpoints.length))
    (hex : ∀ s ∈ endpoints.zip nets, ∀ e,
      teValue hc t s.1 method s.2 = Except.error e → isExceptionDerived e = true) :
    ∃ w', test_multiple_endpoints hc t endpoints method nets sched w =
      (Except.ok (((endpoints.zip nets).map
        (fun s => (s.1, teValue hc t s.1 method s.2))).map (synthSlot method)), w') := by
  by_cases he : endpoints.isEmpty = true
  · have h0 : endpoints = [] := List.isEmpty_iff.1 he
    subst h0
    exact ⟨w, rfl⟩
  · unfold test_multiple_endpoints
    rw [if_neg he, pyThen_none _ (log_batch_event_snd _ _ _ _)]
    dsimp only
    have hslots : (endpoints.zip nets).length = endpoints.length := by
      rw [List.length_zip, hlen, Nat.min_self]
    rw [gatherSched_fst,
        gatherResults_perm hc t method (endpoints.zip nets) sched
          (by rw [hslots]; exact hperm),
        zip_map_teValue hc t method endpoints nets hlen]
    obtain ⟨w3, hpr⟩ := processResults_run method
      ((endpoints.zip nets).map (fun s => (s.1, teValue hc t s.1 method s.2)))
      (gatherSched hc t method (endpoints.zip nets) sched
        (log_event w "api_test_batch"
          [("endpoint_count", PyVal.vint endpoints.length),
           ("method", PyVal.vstr method),
           ("message", PyVal.vstr ("Starting batch test of " ++
             toString endpoints.length ++ " endpoints"))]).1).2
      (by
        intro p hp e he
        obtain ⟨s, hs, hps⟩ := List.mem_map.1 hp
        subst hps
        exact hex s hs e he)
    rw [hpr]
    dsimp only [pyBind]
    rw [pyThen_none _ (log_batch_complete_snd _ _ _ _ _ _)]
    exact ⟨_, rfl⟩

lemma synthSlot_url (method : String) (hc : Bool) (t : Nat) (u : String)
    (net : NetOutcome) :
    (synthSlot method (u, teValue hc t u method net)).url = u := by
  unfold synthSlot
  cases hv : teValue hc t u method net with
  | ok r => exact teValue_ok_url hc t u method net r hv
  | error e => rfl

/-- C2 (corrected): when no per-URL task fault escapes as a
`BaseException`-derived exception — every captured per-slot fault satisfies
`isinstance(result, Exception)` — the batch dispatcher returns, for any
completion order of the concurrently launched tasks (any permutation `sched`
of the slot indices), one result per input URL in input order: the result
list has the input's length and its i-th entry carries the i-th input URL.
Without that condition the claim fails: a `BaseException`-derived task fault
(e.g. cancellation) makes the dispatcher raise `TypeError` and return no
list (see the counterexample). -/
theorem c2_batch_order_amended (hc : Bool) (t : Nat) (endpoints : List String)
    (method : String) (nets : List NetOutcome) (sched : List Nat) (w : World)
    (hlen : nets.length = endpoints.length)
    (hperm : List.Perm sched (List.range endpoints.length))
    (hex : ∀ s ∈ endpoints.zip nets, ∀ e,
      teValue hc t s.1 method s.2 = Except.error e → isExceptionDerived e = true) :
    ∃ out w',
      test_multiple_endpoints hc t endpoints method nets sched w =
        (Except.ok out, w') ∧
      out.length = endpoints.length ∧
      out.map (fun r => r.url) = endpoints ∧
      ∀ (i : Nat) (ho : i < out.length) (hi : i < endpoints.length),
        (out.get ⟨i, ho⟩).url = endpoints.get ⟨i, hi⟩ := by
  obtain ⟨w', hw⟩ := batch_run hc t endpoints method nets sched w hlen hperm hex
  have hslots : (endpoints.zip nets).length = endpoints.length := by
    rw [List.length_zip, hlen, Nat.min_self]
  have hmap : (((endpoints.zip nets).map
      (fun s => (s.1, teValue hc t s.1 method s.2))).map (synthSlot method)).map
        (fun r => r.url) = endpoints := by
    rw [List.map_map, List.map_map]
    refine Eq.trans (List.map_congr_left ?_) (List.map_fst_zip endpoints nets (by omega))
    intro s _
    exact synthSlot_url method hc t s.1 s.2
  refine ⟨_, w', hw, ?_, hmap, ?_⟩
  · rw [List.length_map, List.length_map, hslots]
  · intro i ho hi
    have h2 : ((((endpoints.zip nets).map
        (fun s => (s.1, teValue hc t s.1 method s.2))).map (synthSlot method)).map
          (fun r => r.url)).get ⟨i, by simpa using ho⟩ =
        endpoints.get ⟨i, hi⟩ := by
      simp only [List.get_eq_getElem]
      simp only [hmap]
    simp only [List.get_eq_getElem, List.getElem_map] at h2
    simp only [List.get_eq_getElem, List.getElem_map]
    exact h2

/-- Counterexample to C2 as originally stated, at a concrete input: a
two-endpoint batch whose second task's fault is `BaseException`-derived
(a cancelled task, delivered as a result by
`gather(return_exceptions=True)` but missed by
`isinstance(result, Exception)`) makes the dispatcher raise `TypeError`
while subscripting the raw exception object — it returns no result list at
all, so no ordered output sequence exists for this input. -/
theorem c2_batch_order_counterexample :
    (test_multiple_endpoints true 30 ["https://a.example", "https://b.example"] "GET"
        [NetOutcome.resp (respWith 200) 1,
         NetOutcome.raise (PyErr.baseExc "task cancelled") 2]
        [0, 1] (initialWorld false)).1 =
      Except.error (PyErr.typeError "'CancelledError' object is not subscriptable") := by
  rfl

/-- Witness for amended C2 at a two-endpoint batch completing in reverse
order. -/
theorem c2_batch_order_amended_witness :
    ∃ out w',
      test_multiple_endpoints true 30 ["https://a.example", "https://b.example"] "GET"
        [NetOutcome.resp (respWith 200) 1, NetOutcome.resp (respWith 503) 2]
        [1, 0] (initialWorld false) = (Except.ok out, w') ∧
      out.length = (["https://a.example", "https://b.example"] : List String).length ∧
      out.map (fun r => r.url) = ["https://a.example", "https://b.example"] ∧
      ∀ (i : Nat) (ho : i < out.length)
        (hi : i < (["https://a.example", "https://b.example"] : List String).length),
        (out.get ⟨i, ho⟩).url =
          (["https://a.example", "https://b.example"] : List String).get ⟨i, hi⟩ :=
  c2_batch_order_amended true 30 ["https://a.example", "https://b.example"] "GET"
    [NetOutcome.resp (respWith 200) 1, NetOutcome.resp (respWith 503) 2]
    [1, 0] (initialWorld false) rfl (by decide)
    (by
      intro s hs
      fin_cases hs <;> exact fun e he => Except.noConfusion he)

/-- C6: in the batch summary, a slot is counted as successful exactly when its
task returned a result with `success = true` and a present status code below
400 (`countedSuccessful`); and the concrete batch over statuses
[200, 404, 500, 201] is summarised with success count 2 and success-rate
string "50.0%". -/
theorem c6_success_counting :
    (∀ (method : String) (pairs : List (String × Except PyErr RequestResult))
       (w : World) (out : List RequestResult) (cnt : Nat) (w' : World),
      (∀ p ∈ pairs, ∀ r, p.2 = Except.ok r → r.success = true →
        r.status_code.isSome = true) →
      processResults method pairs w = (Except.ok (out, cnt), w') →
      cnt = pairs.countP countedSuccessful) ∧
    ((test_multiple_endpoints true 30
        ["https://a.example", "https://b.example", "https://c.example", "https://d.example"]
        "GET"
        [NetOutcome.resp (respWith 200) 1, NetOutcome.resp (respWith 404) 2,
         NetOutcome.resp (respWith 500) 3, NetOutcome.resp (respWith 201) 4]
        [2, 0, 3, 1] (initialWorld false)).2.events.filterMap
          (fun e => if e.type == "api_test_batch_complete" then some e.data else none) =
      [[("total_endpoints", PyVal.vint 4), ("successful", PyVal.vint 2),
        ("failed", PyVal.vint 2), ("success_rate", PyVal.vstr "50.0%"),
        ("message", PyVal.vstr "Batch test completed: 2/4 successful")]]) := by
  constructor
  · intro method pairs w out cnt w' hwf hrun
    rw [processResults_ok_cnt method pairs w out cnt w' hrun]
    apply List.countP_congr
    intro p hp
    obtain ⟨u, o⟩ := p
    cases o with
    | error e => simp [countedCode, countedSuccessful]
    | ok r =>
      simp only [countedCode, countedSuccessful]
      by_cases hs : r.success = true
      · have hsome : r.status_code.isSome = true := hwf (u, Except.ok r) hp r rfl hs
        obtain ⟨c, hcv⟩ := Option.isSome_iff_exists.1 hsome
        rw [hcv]
        simp [Option.getD]
      · simp only [Bool.not_eq_true] at hs
        simp [hs]
  · decide

/-- Witness for C6's general count rule at a concrete three-slot list. -/
theorem c6_success_counting_witness :
    2 = ([("u1", Except.ok (respResult "u1" "GET" (respWith 200) 1)),
          ("u2", Except.error (PyErr.generic "x")),
          ("u3", Except.ok (respResult "u3" "GET" (respWith 301) 2))] :
            List (String × Except PyErr RequestResult)).countP countedSuccessful :=
  c6_success_counting.1 "GET"
    [("u1", Except.ok (respResult "u1" "GET" (respWith 200) 1)),
     ("u2", Except.error (PyErr.generic "x")),
     ("u3", Except.ok (respResult "u3" "GET" (respWith 301) 2))]
    (initialWorld false)
    ((([("u1", Except.ok (respResult "u1" "GET" (respWith 200) 1)),
        ("u2", Except.error (PyErr.generic "x")),
        ("u3", Except.ok (respResult "u3" "GET" (respWith 301) 2))] :
          List (String × Except PyErr RequestResult)).map (synthSlot "GET")))
    2
    (processResults "GET"
      [("u1", Except.ok (respResult "u1" "GET" (respWith 200) 1)),
       ("u2", Except.error (PyErr.generic "x")),
       ("u3", Except.ok (respResult "u3" "GET" (respWith 301) 2))]
      (initialWorld false)).2
    (by
      intro p hp r hr hs
      fin_cases hp
      · injection hr with h
        subst h
        rfl
      · simp at hr
      · injection hr with h
        subst h
        rfl)
    rfl

/-- C9 (corrected): per-slot isolation holds exactly for task faults that
derive from `Exception`.  (i) For any list of captured per-slot outcomes
whose faults all satisfy `isinstance(result, Exception)`, the dispatcher's
result-processing loop returns the full-length list in input order: a fault
slot is synthesized with `success = false`, error "Task failed: {detail}",
null status code and null response time, and an ok slot keeps its own
result verbatim.  (ii) But a `BaseException`-derived fault — the only kind
that escapes the request executor's `except` chain mid-request, e.g. task
cancellation — fails the `isinstance(result, Exception)` test: the loop
appends the raw exception object, subscripting it raises `TypeError`, and
the dispatcher aborts with no result list, so the original claim fails at
exactly the scenario it describes. -/
theorem c9_task_isolation_amended :
    (∀ (method : String) (pairs : List (String × Except PyErr RequestResult))
       (w : World),
      (∀ p ∈ pairs, ∀ e, p.2 = Except.error e → isExceptionDerived e = true) →
      ∃ w' cnt,
        processResults method pairs w =
          (Except.ok (pairs.map (synthSlot method), cnt), w') ∧
        (pairs.map (synthSlot method)).length = pairs.length ∧
        (∀ (u : String) (e : PyErr), synthSlot method (u, Except.error e) =
          { url := u, method := method, success := false, status_code := none,
            response_time_ms := none, response_size_bytes := none,
            error := some ("Task failed: " ++ pyStr e), headers := [],
            response_preview := none, retry_attempts := none }) ∧
        (∀ (u : String) (r : RequestResult),
          synthSlot method (u, Except.ok r) = r)) ∧
    (∀ (method url d : String)
       (rest : List (String × Except PyErr RequestResult)) (w : World),
      processResults method ((url, Except.error (PyErr.baseExc d)) :: rest) w =
        (Except.error
          (PyErr.typeError "'CancelledError' object is not subscriptable"), w)) := by
  constructor
  · intro method pairs w hex
    obtain ⟨w', hw'⟩ := processResults_run method pairs w hex
    exact ⟨w', pairs.countP countedCode, hw', by rw [List.length_map],
      fun u e => rfl, fun u r => rfl⟩
  · intro method url d rest w
    simp only [processResults]
    rw [if_neg (by simp [isExceptionDerived])]
    rfl

/-- Counterexample to C9 as originally stated, at a concrete input: a batch
whose middle task is cancelled (a `BaseException`-derived fault escaping the
executor) makes the dispatcher itself raise `TypeError` — it returns no
result list, aborting the siblings instead of synthesizing the failed
slot. -/
theorem c9_task_isolation_counterexample :
    (test_multiple_endpoints true 30
        ["https://a.example", "https://b.example", "https://c.example"] "GET"
        [NetOutcome.resp (respWith 200) 1,
         NetOutcome.raise (PyErr.baseExc "task cancelled") 2,
         NetOutcome.resp (respWith 201) 3]
        [1, 2, 0] (initialWorld false)).1 =
      Except.error (PyErr.typeError "'CancelledError' object is not subscriptable") := by
  rfl

/-- Witness for amended C9 at a concrete mixed outcome list: one ok slot and
one slot whose task raised the `Exception`-derived pre-flight ValueError. -/
theorem c9_task_isolation_amended_witness :
    ∃ w' cnt,
      processResults "GET"
          [("https://a.example", Except.ok (respResult "https://a.example" "GET" (respWith 200) 1)),
           ("https://b.example", Except.error (PyErr.valueError "Invalid HTTP method: FETCH"))]
          (initialWorld false) =
        (Except.ok
          (([("https://a.example", Except.ok (respResult "https://a.example" "GET" (respWith 200) 1)),
             ("https://b.example", Except.error (PyErr.valueError "Invalid HTTP method: FETCH"))] :
               List (String × Except PyErr RequestResult)).map (synthSlot "GET"), cnt), w') ∧
      (([("https://a.example", Except.ok (respResult "https://a.example" "GET" (respWith 200) 1)),
         ("https://b.example", Except.error (PyErr.valueError "Invalid HTTP method: FETCH"))] :
           List (String × Except PyErr RequestResult)).map (synthSlot "GET")).length =
        ([("https://a.example", Except.ok (respResult "https://a.example" "GET" (respWith 200) 1)),
          ("https://b.example", Except.error (PyErr.valueError "Invalid HTTP method: FETCH"))] :
            List (String × Except PyErr RequestResult)).length ∧
      (∀ (u : String) (e : PyErr), synthSlot "GET" (u, Except.error e) =
        { url := u, method := "GET", success := false, status_code := none,
          response_time_ms := none, response_size_bytes := none,
          error := some ("Task failed: " ++ pyStr e), headers := [],
          response_preview := none, retry_attempts := none }) ∧
      (∀ (u : String) (r : RequestResult), synthSlot "GET" (u, Except.ok r) = r) :=
  c9_task_isolation_amended.1 "GET"
    [("https://a.example", Except.ok (respResult "https://a.example" "GET" (respWith 200) 1)),
     ("https://b.example", Except.error (PyErr.valueError "Invalid HTTP method: FETCH"))]
    (initialWorld false)
    (by
      intro p hp e he
      fin_cases hp
      · exact Except.noConfusion he
      · injection he with h
        rw [← h]
        rfl)
